import Mathlib

/-!
# GrugNTPClient: a shallow embedding of the asynchronous NTP client

The engine of `GrugNTPClient.cpp` is embedded as pure functions over an explicit
state: the object's fields (`GrugNTPClient`) together with the part of the
platform the object talks to (`Platform`: sockets, receive queue, sent
datagrams, wall clock, diagnostics).  Outcomes of platform calls that the
engine cannot predict (link status, name resolution, `socket`, `bind`, `fcntl`,
`sendto`, the tick readings) are supplied per call in an `Env` record.

Machine integers are `Nat`/`Int` with explicit reduction modulo `2^32` at the
places where the C++ arithmetic is carried out in `uint32_t`.
-/

namespace GrugNTP

/-! ## Machine arithmetic -/

/-- Conversion of a C integer to `uint32_t`: the value modulo `2^32`. -/
def toU32 (i : Int) : Nat := (i % 4294967296).toNat

/-- Addition in `uint32_t`. -/
def addU32 (a b : Nat) : Nat := (a + b) % 4294967296

/-- Subtraction in `uint32_t` (wraps around below zero). -/
def subU32 (a b : Nat) : Nat := toU32 ((a : Int) - (b : Int))

/-- Arduino `word(h, l)`: the 16-bit value `(h << 8) | l` of two bytes. -/
def word (h l : Nat) : Nat := (((h % 256) <<< 8) ||| (l % 256)) % 65536

/-- Host-to-network byte swap of a 16-bit value on the little-endian target. -/
def htons (x : Nat) : Nat := (x % 256) * 256 + (x / 256) % 256

/-! ## Constants of `GrugNTPClient.h` -/

def SEVENZYYEARS : Nat := 2208988800
def NTP_PACKET_SIZE : Nat := 48
def NTP_DEFAULT_LOCAL_PORT : Nat := 1337
def MAX_DNS_ERRORS : Int := 10

/-- The socket constant `AF_INET`. -/
def AF_INET : Nat := 2

/-! ## Data model -/

/-- Modelled from the spec: the `Timeout` class of `timeout.h`, which is not part of
the sources.  The spec describes the retry timer as a single deadline value that
is armed with an interval; the model keeps the tick at which it was armed and the
interval it was armed with, and it has expired once that many milliseconds have
elapsed on the wrapping 32-bit tick counter.  A timer that was never armed has
interval zero and is therefore expired. -/
structure Timeout where
  start : Nat
  duration : Nat
  deriving DecidableEq, Repr

/-- The call `timeout.set( interval )` issued when the timer's clock reads `now`. -/
def Timeout.arm (now interval : Nat) : Timeout := ⟨now, interval⟩

/-- The query `timeout.expired()` issued when the timer's clock reads `now`. -/
def Timeout.expired (t : Timeout) (now : Nat) : Bool :=
  decide (t.duration ≤ subU32 now t.start)

/-- The fields of `struct sockaddr_in` the engine uses. -/
structure SockAddrIn where
  sin_family : Nat
  sin_port : Nat
  s_addr : Nat
  deriving DecidableEq, Repr

/-- The fields of a `GrugNTPClient` object. -/
structure GrugNTPClient where
  _serverName : String
  _serverIP : SockAddrIn
  _port : Nat
  _sockfd : Int
  timeout : Timeout
  _timeOffset : Int
  _updateInterval : Nat
  _retryInterval : Nat
  _errorInterval : Nat
  _lastUpdate : Nat
  _currentEpoc : Nat
  _errorCounter : Int
  _packetBuffer : List Nat
  boot_timestamp_iso : List Char
  boot_timestamp : Nat
  deriving DecidableEq, Repr

/-- The operation named in a diagnostic emitted by `err`. -/
inductive ErrOp where
  | gethostbyname
  | socket
  | bind
  | fcntl
  | sendto
  deriving DecidableEq, Repr

/-- The messages handed to `log`. -/
inductive LogMsg where
  | error (op : ErrOp)
  | server (p0 p1 p2 p3 : Nat)
  | sent
  | timeSet (iso : List Char)
  deriving DecidableEq, Repr

/-- One call of `sendto`: the handle, the bytes handed over, the destination and
the number of bytes the transport reported as accepted. -/
structure SendRecord where
  fd : Int
  payload : List Nat
  dest : SockAddrIn
  ret : Int
  deriving DecidableEq, Repr

/-- The platform as far as the engine can observe or change it: the socket
handles created and not yet closed, the local port and blocking mode given to the
engine's socket, the datagrams waiting on that socket, every `sendto` call, every
`setTime` call and the diagnostics written so far. -/
structure Platform where
  openSockets : List Int
  boundPort : Option Nat
  nonBlocking : Bool
  rxQueue : List (List Nat)
  sentLog : List SendRecord
  clockSets : List Nat
  diag : List LogMsg
  deriving DecidableEq, Repr

/-- Outcomes of the platform calls made during one call of an engine operation. -/
structure Env where
  /-- Whether `WiFi.status()` reports `WL_CONNECTED`. -/
  wifiConnected : Bool
  /-- Result of `gethostbyname`: the resolved IPv4 address, or failure. -/
  hostent : Option Nat
  /-- Return value of `socket`. -/
  socketRet : Int
  /-- Return value of `bind`. -/
  bindRet : Int
  /-- Return value of `fcntl( F_GETFL )`. -/
  fcntlGetRet : Int
  /-- Return value of `fcntl( F_SETFL )`. -/
  fcntlSetRet : Int
  /-- Return value of `sendto`. -/
  sendtoRet : Int
  /-- Reading of `fastmillis()` stored as `_lastUpdate`. -/
  now : Nat
  /-- Reading of `fastmillis()` inside the `getEpochTime` call of `receiveUpdate`. -/
  now2 : Nat
  /-- Reading of the clock used by the `Timeout` object. -/
  timerNow : Nat
  deriving DecidableEq, Repr

/-- The engine together with the platform it runs on. -/
structure Sys where
  c : GrugNTPClient
  p : Platform
  deriving DecidableEq, Repr

/-! ## Platform operations -/

/-- The call `log( ... )`: the message is appended to the diagnostics. -/
def log (m : LogMsg) (s : Sys) : Sys :=
  { s with p := { s.p with diag := s.p.diag ++ [m] } }

/-- The call `close( fd )`: the handle is released together with its queue. -/
def Platform.close (p : Platform) (fd : Int) : Platform :=
  { p with openSockets := p.openSockets.erase fd, boundPort := none,
           nonBlocking := false, rxQueue := [] }

/-- The call `socket( AF_INET, SOCK_DGRAM, IPPROTO_UDP )` returning `fd`: a
non-negative result is a new open handle with nothing queued. -/
def Platform.socket (p : Platform) (fd : Int) : Platform :=
  if fd < 0 then p
  else { p with openSockets := fd :: p.openSockets, boundPort := none,
                nonBlocking := false, rxQueue := [] }

/-- Number of bytes `recvfrom` reports for a queued datagram read into the 48-byte
packet buffer: the datagram's length, cut to the size of the buffer. -/
def recvLen (d : List Nat) : Int := ((min d.length NTP_PACKET_SIZE : Nat) : Int)

/-- Contents of the packet buffer after `recvfrom` has copied datagram `d` into it. -/
def storeDatagram (buf d : List Nat) : List Nat :=
  (d.take NTP_PACKET_SIZE).map (fun b => b % 256) ++ buf.drop (min d.length NTP_PACKET_SIZE)

/-- The non-blocking call `recvfrom( _sockfd, _packetBuffer, 48, ... )`: with
nothing queued it returns `-1` and leaves the buffer alone, otherwise it removes
the first queued datagram and copies it into the buffer. -/
def recvfrom (p : Platform) (buf : List Nat) : Int × List Nat × Platform :=
  match p.rxQueue with
  | [] => (-1, buf, p)
  | d :: rest => (recvLen d, storeDatagram buf d, { p with rxQueue := rest })

/-- Days since 1970-01-01 to the civil date (year, month, day) of the proleptic
Gregorian calendar, as computed by `localtime` with no time zone configured. -/
def civilFromDays (days : Nat) : Nat × Nat × Nat :=
  let z := days + 719468
  let era := z / 146097
  let doe := z % 146097
  let yoe := (doe - doe / 1460 + doe / 36524 - doe / 146096) / 365
  let doy := doe - (365 * yoe + yoe / 4 - yoe / 100)
  let mp := (5 * doy + 2) / 153
  let d := doy - (153 * mp + 2) / 5 + 1
  let m := if mp < 10 then mp + 3 else mp - 9
  let y := yoe + era * 400
  (if m ≤ 2 then y + 1 else y, m, d)

/-- The character of a decimal digit. -/
def digitChar (d : Nat) : Char := Char.ofNat (48 + d % 10)

/-- Two decimal digits, zero padded. -/
def pad2 (n : Nat) : List Char := [digitChar (n / 10), digitChar n]

/-- The text written by `strftime( buf, 20, "%Y-%m-%dT%H:%M:%S", localtime(&t) )`
into the 20-byte buffer: at most 19 characters before the terminator. -/
def strftimeISO (t : Nat) : List Char :=
  let ymd := civilFromDays (t / 86400)
  let sod := t % 86400
  ((Nat.toDigits 10 ymd.1) ++ ['-'] ++ pad2 ymd.2.1 ++ ['-'] ++ pad2 ymd.2.2 ++ ['T']
    ++ pad2 (sod / 3600) ++ [':'] ++ pad2 (sod % 3600 / 60) ++ [':'] ++ pad2 (sod % 60)).take 19

/-! ## The engine -/

/-- The constructor `GrugNTPClient( poolServerName, timeOffset, updateInterval,
retryInterval, errorInterval )`; the remaining fields take their in-class
initialisers. -/
def GrugNTPClient.new (poolServerName : String) (timeOffset : Int)
    (updateInterval retryInterval errorInterval : Nat) : GrugNTPClient :=
  { _serverName := poolServerName
    _serverIP := ⟨0, 0, 0⟩
    _port := NTP_DEFAULT_LOCAL_PORT
    _sockfd := -1
    timeout := ⟨0, 0⟩
    _timeOffset := timeOffset
    _updateInterval := updateInterval
    _retryInterval := retryInterval
    _errorInterval := errorInterval
    _lastUpdate := 0
    _currentEpoc := 0
    _errorCounter := 0
    _packetBuffer := List.replicate NTP_PACKET_SIZE 0
    boot_timestamp_iso := []
    boot_timestamp := 0 }

/-- A platform on which the engine has not yet done anything. -/
def Platform.initial : Platform :=
  { openSockets := [], boundPort := none, nonBlocking := false, rxQueue := [],
    sentLog := [], clockSets := [], diag := [] }

/-- A freshly constructed engine on an untouched platform. -/
def Sys.fresh (poolServerName : String) (timeOffset : Int)
    (updateInterval retryInterval errorInterval : Nat) : Sys :=
  ⟨GrugNTPClient.new poolServerName timeOffset updateInterval retryInterval errorInterval,
   Platform.initial⟩

/-- `GrugNTPClient::begin`. -/
def begin (port : Nat) (s : Sys) : Sys :=
  { s with c := { s.c with _port := port } }

/-- `GrugNTPClient::closeSocket`. -/
def closeSocket (s : Sys) : Sys :=
  if 0 ≤ s.c._sockfd then
    { c := { s.c with _sockfd := -1 }, p := s.p.close s.c._sockfd }
  else s

/-- `GrugNTPClient::err`: log the failing operation, clean up; the caller returns
`false`. -/
def err (op : ErrOp) (s : Sys) : Sys :=
  closeSocket (log (.error op) s)

/-- `GrugNTPClient::receiveNTPPacket`. -/
def receiveNTPPacket (s : Sys) : Bool × Sys :=
  if s.c._sockfd < 0 then (false, s)
  else
    let r := recvfrom s.p s.c._packetBuffer
    (decide (toU32 r.1 = NTP_PACKET_SIZE),
      { c := { s.c with _packetBuffer := r.2.1 }, p := r.2.2 })

/-- `GrugNTPClient::getEpochTime`, evaluated when `fastmillis()` reads `now`. -/
def getEpochTime (c : GrugNTPClient) (now : Nat) : Nat :=
  addU32 (addU32 (toU32 c._timeOffset) c._currentEpoc) (subU32 now c._lastUpdate / 1000)

/-- `GrugNTPClient::isTimeSet`: the conversion of `_currentEpoc` to `bool`. -/
def isTimeSet (c : GrugNTPClient) : Bool := decide (c._currentEpoc ≠ 0)

/-- The loop `while( receiveNTPPacket() ) ;` run for at most `fuel` reads: it
stops at the first read that does not yield a full-size datagram. -/
def drainLoop : Nat → Sys → Sys
  | 0, s => s
  | fuel + 1, s =>
    let r := receiveNTPPacket s
    if r.1 then drainLoop fuel r.2 else r.2

/-- The drain step of `forceUpdate`.  Every read that keeps the loop going removes
one queued datagram, so one read more than the queue holds reaches the exit. -/
def drain (s : Sys) : Sys := drainLoop (s.p.rxQueue.length + 1) s

/-- The request written into the packet buffer by `forceUpdate` (lines 120 to
129): the buffer is zeroed, then eight bytes are assigned. -/
def buildRequest (s : Sys) : Sys :=
  let b0 := List.replicate NTP_PACKET_SIZE 0
  let b1 := b0.set 0 0b11100011
  let b2 := b1.set 1 0
  let b3 := b2.set 2 6
  let b4 := b3.set 3 0xEC
  let b5 := b4.set 12 49
  let b6 := b5.set 13 0x4E
  let b7 := b6.set 14 49
  let b8 := b7.set 15 52
  { s with c := { s.c with _packetBuffer := b8 } }

/-- First stage of `forceUpdate` (lines 77 to 94): make sure the server address
is known.  `Except.error` carries the state in which `forceUpdate` returns
`false`. -/
def resolveServer (e : Env) (s : Sys) : Except Sys Sys :=
  if s.c._serverIP.s_addr = 0 then
    match e.hostent with
    | none =>
      if s.c._errorCounter < MAX_DNS_ERRORS then
        .error (err .gethostbyname
          { s with c := { s.c with _errorCounter := s.c._errorCounter + 1,
                                   timeout := Timeout.arm e.timerNow s.c._retryInterval } })
      else
        .error (err .gethostbyname
          { s with c := { s.c with timeout := Timeout.arm e.timerNow s.c._errorInterval } })
    | some a =>
      .ok (log (.server (a % 256) (a / 256 % 256) (a / 65536 % 256) (a / 16777216 % 256))
        { s with c := { s.c with _errorCounter := 0,
                                 _serverIP := ⟨AF_INET, htons 123, a⟩ } })
  else .ok s

/-- Second stage of `forceUpdate` (lines 97 to 114): make sure a bound,
non-blocking socket is open. -/
def openSocket (e : Env) (s : Sys) : Except Sys Sys :=
  if s.c._sockfd < 0 then
    let s1 : Sys := { c := { s.c with _sockfd := e.socketRet }, p := s.p.socket e.socketRet }
    if s1.c._sockfd < 0 then .error (err .socket s1)
    else if e.bindRet < 0 then .error (err .bind s1)
    else
      let s2 : Sys := { s1 with p := { s1.p with boundPort := some s1.c._port } }
      if e.fcntlGetRet < 0 ∨ e.fcntlSetRet < 0 then .error (err .fcntl s2)
      else .ok { s2 with p := { s2.p with nonBlocking := true } }
  else .ok s

/-- Last stage of `forceUpdate` (lines 131 to 138): hand the buffer to `sendto`
and arm the timer when all 48 bytes were accepted. -/
def transmit (e : Env) (s : Sys) : Bool × Sys :=
  let s1 : Sys := { s with p := { s.p with sentLog := s.p.sentLog ++
    [⟨s.c._sockfd, s.c._packetBuffer.take NTP_PACKET_SIZE, s.c._serverIP, e.sendtoRet⟩] } }
  if toU32 e.sendtoRet ≠ NTP_PACKET_SIZE then (false, err .sendto s1)
  else
    let s2 := log .sent s1
    (true, { s2 with c := { s2.c with timeout := Timeout.arm e.timerNow s2.c._retryInterval } })

/-- `GrugNTPClient::forceUpdate`. -/
def forceUpdate (e : Env) (s : Sys) : Bool × Sys :=
  if e.wifiConnected = false then (false, s)
  else
    match resolveServer e s with
    | .error s1 => (false, s1)
    | .ok s1 =>
      match openSocket e s1 with
      | .error s2 => (false, s2)
      | .ok s2 => transmit e (buildRequest (drain s2))

/-- `GrugNTPClient::startUpdate`. -/
def startUpdate (e : Env) (s : Sys) : Bool × Sys :=
  if s.c.timeout.expired e.timerNow = false then (false, s)
  else forceUpdate e s

/-- The transmit-seconds field of the packet buffer as `receiveUpdate` assembles
it (lines 153 to 155): two 16-bit words joined into a 32-bit `unsigned long`. -/
def secsSince1900 (buf : List Nat) : Nat :=
  let highWord := word (buf.getD 40 0) (buf.getD 41 0)
  let lowWord := word (buf.getD 42 0) (buf.getD 43 0)
  ((highWord <<< 16) ||| lowWord) % 4294967296

/-- `GrugNTPClient::receiveUpdate`. -/
def receiveUpdate (e : Env) (s : Sys) : Bool × Sys :=
  let r := receiveNTPPacket s
  if r.1 = false then (false, r.2)
  else
    let s1 : Sys := { r.2 with c := { r.2.c with _lastUpdate := e.now } }
    let s2 : Sys := { s1 with c := { s1.c with
      _currentEpoc := subU32 (secsSince1900 s1.c._packetBuffer) SEVENZYYEARS } }
    let s3 := closeSocket s2
    let t := getEpochTime s3.c e.now2
    let s4 : Sys := { s3 with p := { s3.p with clockSets := s3.p.clockSets ++ [t] } }
    let buf := strftimeISO t
    let s5 := log (.timeSet buf) s4
    let s6 : Sys :=
      if s5.c.boot_timestamp_iso.head? = none then
        { s5 with c := { s5.c with boot_timestamp_iso := buf, boot_timestamp := t } }
      else s5
    (true, { s6 with c := { s6.c with timeout := Timeout.arm e.timerNow s6.c._updateInterval } })

/-- `GrugNTPClient::end`. -/
def end_ (s : Sys) : Sys :=
  let s1 := closeSocket s
  { s1 with c := { s1.c with _serverIP := { s1.c._serverIP with s_addr := 0 } } }

/-- `GrugNTPClient::setTimeOffset`. -/
def setTimeOffset (timeOffset : Int) (s : Sys) : Sys :=
  { s with c := { s.c with _timeOffset := timeOffset } }

/-- `GrugNTPClient::setUpdateInterval`. -/
def setUpdateInterval (updateInterval retryInterval errorInterval : Nat) (s : Sys) : Sys :=
  { s with c := { s.c with _updateInterval := updateInterval,
                           _retryInterval := retryInterval,
                           _errorInterval := errorInterval } }

/-- `GrugNTPClient::setPoolServerName`. -/
def setPoolServerName (poolServerName : String) (s : Sys) : Sys :=
  { s with c := { s.c with _serverName := poolServerName,
                           _serverIP := { s.c._serverIP with s_addr := 0 } } }

/-! ## Runs of the engine -/

/-- What can happen to the engine: a call of one of its public operations, or the
arrival of a datagram on its socket. -/
inductive Op where
  | begin (port : Nat)
  | end_
  | startUpdate (e : Env)
  | forceUpdate (e : Env)
  | receiveUpdate (e : Env)
  | setTimeOffset (timeOffset : Int)
  | setUpdateInterval (updateInterval retryInterval errorInterval : Nat)
  | setPoolServerName (poolServerName : String)
  | arrive (d : List Nat)
  deriving DecidableEq, Repr

/-- A datagram reaches the engine's socket: it is queued when a socket is open and
lost otherwise. -/
def arrive (d : List Nat) (s : Sys) : Sys :=
  if s.p.openSockets = [] then s
  else { s with p := { s.p with rxQueue := s.p.rxQueue ++ [d] } }

/-- One event: the value returned to the caller (`false` for the operations that
return nothing) and the state afterwards. -/
def step (s : Sys) : Op → Bool × Sys
  | .begin port => (false, begin port s)
  | .end_ => (false, end_ s)
  | .startUpdate e => startUpdate e s
  | .forceUpdate e => forceUpdate e s
  | .receiveUpdate e => receiveUpdate e s
  | .setTimeOffset o => (false, setTimeOffset o s)
  | .setUpdateInterval u r x => (false, setUpdateInterval u r x s)
  | .setPoolServerName n => (false, setPoolServerName n s)
  | .arrive d => (false, arrive d s)

/-- The state after a sequence of events. -/
def run (s : Sys) : List Op → Sys
  | [] => s
  | op :: ops => run (step s op).2 ops

/-- The number of `receiveUpdate` calls of a run that returned `true`. -/
def successfulReceives (s : Sys) : List Op → Nat
  | [] => 0
  | op :: ops =>
    (match op with
      | .receiveUpdate e => if (receiveUpdate e s).1 then 1 else 0
      | _ => 0) + successfulReceives (step s op).2 ops

/-- The states an engine constructed with the given arguments can be in. -/
def Reachable (s : Sys) : Prop :=
  ∃ (name : String) (off : Int) (u r x : Nat) (ops : List Op),
    s = run (Sys.fresh name off u r x) ops

/-- The transmit-seconds field `X` of a datagram as the specification words it:
the big-endian value `b40 * 2^24 + b41 * 2^16 + b42 * 2^8 + b43` of bytes 40..43. -/
def transmitSeconds (d : List Nat) : Nat :=
  d.getD 40 0 * 2 ^ 24 + d.getD 41 0 * 2 ^ 16 + d.getD 42 0 * 2 ^ 8 + d.getD 43 0

/-! ## Sample inputs -/

/-- A 48-byte reply whose bytes 40..43 are the given ones and whose other bytes
are zero. -/
def replyWith (b40 b41 b42 b43 : Nat) : List Nat :=
  List.replicate 40 0 ++ [b40, b41, b42, b43] ++ List.replicate 4 0

/-- A reply carrying transmit seconds 3855542304, that is 2022-03-06T07:58:24. -/
def sampleReply : List Nat := replyWith 229 206 232 32

/-- Platform outcomes in which every call succeeds; the ticks read 5000. -/
def sampleEnv : Env :=
  { wifiConnected := true, hostent := some 16909060, socketRet := 3, bindRet := 0,
    fcntlGetRet := 0, fcntlSetRet := 0, sendtoRet := 48,
    now := 5000, now2 := 5000, timerNow := 5000 }

/-- Platform outcomes in which the link is up and name resolution fails. -/
def sampleEnvNoDns : Env := { sampleEnv with hostent := none }

/-- A freshly constructed engine with the intervals of the header's example. -/
def sampleFresh : Sys := Sys.fresh "pool.ntp.org" 0 60000 10000 3600000

/-- An engine that has sent its request on socket 3 and has `sampleReply` queued. -/
def sampleAwaiting : Sys :=
  { c := { sampleFresh.c with _sockfd := 3, _serverIP := ⟨AF_INET, htons 123, 16909060⟩,
                              timeout := ⟨5000, 10000⟩ },
    p := { Platform.initial with openSockets := [3], boundPort := some 1337,
                                 nonBlocking := true, rxQueue := [sampleReply] } }

/-- An engine whose last update, 1646553504, was taken at tick 4294967000. -/
def sampleSynced : GrugNTPClient :=
  { sampleFresh.c with _currentEpoc := 1646553504, _lastUpdate := 4294967000 }

/-- A freshly constructed engine for a time zone one hour west of Greenwich. -/
def sampleWest : GrugNTPClient := GrugNTPClient.new "pool.ntp.org" (-3600) 60000 10000 3600000

/-- An engine awaiting a reply on socket 3 with the given datagram queued. -/
def awaitingWith (d : List Nat) : Sys :=
  { sampleAwaiting with p := { sampleAwaiting.p with rxQueue := [d] } }

/-- A reply whose transmit-seconds field is exactly 2208988800, the NTP timestamp
of 1970-01-01T00:00:00. -/
def replyEpochZero : List Nat := replyWith 131 170 126 128

/-- A full exchange on a fresh engine: the request is sent, the reply
`replyEpochZero` arrives, the reply is received. -/
def exchangeEpochZero : List Op :=
  [.forceUpdate sampleEnv, .arrive replyEpochZero, .receiveUpdate sampleEnv]



/-- The engine `sampleFresh` after `n` consecutive `forceUpdate` calls made with
the link up and name resolution failing. -/
def afterDnsFailures (n : Nat) : Sys :=
  run sampleFresh (List.replicate n (.forceUpdate sampleEnvNoDns))

/-- The fields of the engine that the stages of `forceUpdate` after name
resolution never write: everything but the socket handle, the timer and the
packet buffer. -/
def sendFrame (c : GrugNTPClient) :
    String × SockAddrIn × Nat × Int × Nat × Nat × Nat × Nat × Nat × Int × List Char × Nat :=
  (c._serverName, c._serverIP, c._port, c._timeOffset, c._updateInterval, c._retryInterval,
   c._errorInterval, c._lastUpdate, c._currentEpoc, c._errorCounter, c.boot_timestamp_iso,
   c.boot_timestamp)

/-- The state in which name resolution succeeds with address `a` (lines 87 to 93). -/
def resolved (a : Nat) (s : Sys) : Sys :=
  log (.server (a % 256) (a / 256 % 256) (a / 65536 % 256) (a / 16777216 % 256))
    { s with c := { s.c with _errorCounter := 0, _serverIP := ⟨AF_INET, htons 123, a⟩ } }

/-- An engine whose counter of failed resolutions has reached the threshold. -/
def sampleSaturated : Sys := afterDnsFailures 10

/-- The bytes of the request datagram, written out. -/
def requestBytes : List Nat :=
  [0xE3, 0, 6, 0xEC, 0, 0, 0, 0, 0, 0, 0, 0, 49, 0x4E, 49, 52,
   0, 0, 0, 0, 0, 0, 0, 0, 0, 0, 0, 0, 0, 0, 0, 0,
   0, 0, 0, 0, 0, 0, 0, 0, 0, 0, 0, 0, 0, 0, 0, 0]

/-- The engine's handle and the platform's open handles agree: no handle is open
when `_sockfd` is negative, and otherwise `_sockfd` is the only open handle. -/
def SocketOwned (s : Sys) : Prop :=
  (s.c._sockfd < 0 ∧ s.p.openSockets = []) ∨ (0 ≤ s.c._sockfd ∧ s.p.openSockets = [s.c._sockfd])

/-- A cached server address is an IPv4 address on UDP port 123. -/
def AddressForNtp (s : Sys) : Prop :=
  s.c._serverIP.s_addr ≠ 0 →
    s.c._serverIP.sin_port = htons 123 ∧ s.c._serverIP.sin_family = AF_INET

/-- The fields of the engine that `receiveUpdate` never writes. -/
def receiveFrame (c : GrugNTPClient) :
    String × SockAddrIn × Nat × Int × Nat × Nat × Nat × Int :=
  (c._serverName, c._serverIP, c._port, c._timeOffset, c._updateInterval, c._retryInterval,
   c._errorInterval, c._errorCounter)

/-- The stages of `forceUpdate` that follow name resolution (lines 96 to 138). -/
def sendStages (e : Env) (s1 : Sys) : Bool × Sys :=
  match openSocket e s1 with
  | .error s2 => (false, s2)
  | .ok s2 => transmit e (buildRequest (drain s2))

/-- The leap indicator of the first byte of an NTP header: its top two bits. -/
def leapIndicator (b : Nat) : Nat := b / 64 % 4

/-- The version number of the first byte of an NTP header: the three bits below the
leap indicator. -/
def versionNumber (b : Nat) : Nat := b / 8 % 8

/-- The mode of the first byte of an NTP header: its low three bits. -/
def ntpMode (b : Nat) : Nat := b % 8

/-- The engine `sampleFresh` after its first request has been sent. -/
def sampleSent : Sys := run sampleFresh [.forceUpdate sampleEnv]

/-- The baseline pair and the boot timestamp: the fields that only a successful
`receiveUpdate` writes. -/
def baseline (c : GrugNTPClient) : Nat × Nat × List Char × Nat :=
  (c._lastUpdate, c._currentEpoc, c.boot_timestamp_iso, c.boot_timestamp)

/-- A reply carrying transmit seconds 3855546000, one hour and 96 seconds after
`sampleReply`. -/
def sampleReplyLater : List Nat := replyWith 229 206 246 144

/-- Events up to the arrival of the first reply on a fresh engine. -/
def firstExchange : List Op := [.forceUpdate sampleEnv, .arrive sampleReply]

/-- A second complete exchange, made after the first reply has been received. -/
def secondExchange : List Op :=
  [.forceUpdate sampleEnv, .arrive sampleReplyLater, .receiveUpdate sampleEnv]

/-- The state `s` with another baseline pair. -/
def withBaseline (last epoch : Nat) (s : Sys) : Sys :=
  { s with c := { s.c with _lastUpdate := last, _currentEpoc := epoch } }

/-- An engine that sent a request and then had two datagrams arrive that it never
read: a one-byte datagram followed by the reply `sampleReply`. -/
def sampleStale : Sys :=
  run sampleFresh [.forceUpdate sampleEnv, .arrive [0], .arrive sampleReply]

/-- A datagram of 47 zero bytes. -/
def sampleShort : List Nat := List.replicate 47 0

/-! # Theorems -/

/-! ## Arithmetic facts -/

theorem toU32_cast (i : Int) : ((toU32 i : Nat) : Int) = i % 4294967296 := by
  unfold toU32
  omega

theorem toU32_lt (i : Int) : toU32 i < 4294967296 := by
  unfold toU32
  omega

theorem subU32_cast (a b : Nat) :
    ((subU32 a b : Nat) : Int) = ((a : Int) - (b : Int)) % 4294967296 :=
  toU32_cast _

theorem subU32_of_le (a b : Nat) (hb : b ≤ a) (ha : a < 4294967296) :
    subU32 a b = a - b := by
  have h := subU32_cast a b
  omega

theorem word_eq (h l : Nat) : word h l = (h % 256) * 256 + l % 256 := by
  unfold word
  have h1 : (h % 256) <<< 8 = 2 ^ 8 * (h % 256) := by
    rw [Nat.shiftLeft_eq, Nat.mul_comm]
  have h2 : 2 ^ 8 * (h % 256) ||| (l % 256) = 2 ^ 8 * (h % 256) + l % 256 :=
    (Nat.mul_add_lt_is_or (Nat.mod_lt _ (by decide)) _).symm
  rw [h1, h2]
  omega

theorem secsSince1900_eq (buf : List Nat) :
    secsSince1900 buf =
      (buf.getD 40 0 % 256) * 2 ^ 24 + (buf.getD 41 0 % 256) * 2 ^ 16
        + (buf.getD 42 0 % 256) * 2 ^ 8 + buf.getD 43 0 % 256 := by
  unfold secsSince1900
  simp only [word_eq]
  have ha : buf.getD 40 0 % 256 < 256 := Nat.mod_lt _ (by decide)
  have hb : buf.getD 41 0 % 256 < 256 := Nat.mod_lt _ (by decide)
  have hc : buf.getD 42 0 % 256 < 256 := Nat.mod_lt _ (by decide)
  have hd : buf.getD 43 0 % 256 < 256 := Nat.mod_lt _ (by decide)
  generalize buf.getD 40 0 % 256 = a at ha ⊢
  generalize buf.getD 41 0 % 256 = b at hb ⊢
  generalize buf.getD 42 0 % 256 = c at hc ⊢
  generalize buf.getD 43 0 % 256 = d at hd ⊢
  have h1 : (a * 256 + b) <<< 16 = 2 ^ 16 * (a * 256 + b) := by
    rw [Nat.shiftLeft_eq, Nat.mul_comm]
  have h2 : 2 ^ 16 * (a * 256 + b) ||| (c * 256 + d) = 2 ^ 16 * (a * 256 + b) + (c * 256 + d) :=
    (Nat.mul_add_lt_is_or (by omega) _).symm
  rw [h1, h2]
  omega

theorem storeDatagram_getD (buf d : List Nat) (i : Nat) (hlen : d.length = 48) (hi : i < 48) :
    (storeDatagram buf d).getD i 0 = d.getD i 0 % 256 := by
  unfold storeDatagram NTP_PACKET_SIZE
  have ht : d.take 48 = d := List.take_of_length_le (by omega)
  rw [ht]
  have hi2 : i < (d.map (fun b => b % 256)).length := by simp; omega
  simp [List.getD_eq_getElem?_getD, List.getElem?_append_left hi2]
  have : i < d.length := by omega
  simp [List.getElem?_eq_getElem this]

theorem receiveNTPPacket_full (s : Sys) (d : List Nat) (rest : List (List Nat))
    (hfd : 0 ≤ s.c._sockfd) (hq : s.p.rxQueue = d :: rest) (hlen : d.length = 48) :
    receiveNTPPacket s =
      (true, { c := { s.c with _packetBuffer := storeDatagram s.c._packetBuffer d },
               p := { s.p with rxQueue := rest } }) := by
  unfold receiveNTPPacket recvfrom
  simp [hq, not_lt.mpr hfd, recvLen, NTP_PACKET_SIZE, hlen, toU32]

/-- What a `receiveUpdate` that reads a full-size datagram leaves behind. -/
theorem receiveUpdate_full (e : Env) (s : Sys) (d : List Nat) (rest : List (List Nat))
    (hfd : 0 ≤ s.c._sockfd) (hq : s.p.rxQueue = d :: rest) (hlen : d.length = 48) :
    (receiveUpdate e s).1 = true
    ∧ (receiveUpdate e s).2.c._sockfd = -1
    ∧ (receiveUpdate e s).2.c._lastUpdate = e.now
    ∧ (receiveUpdate e s).2.c._currentEpoc
        = subU32 (secsSince1900 (storeDatagram s.c._packetBuffer d)) SEVENZYYEARS
    ∧ (receiveUpdate e s).2.c.timeout = Timeout.arm e.timerNow s.c._updateInterval
    ∧ (receiveUpdate e s).2.p.openSockets = s.p.openSockets.erase s.c._sockfd
    ∧ (receiveUpdate e s).2.c._timeOffset = s.c._timeOffset := by
  unfold receiveUpdate
  rw [receiveNTPPacket_full s d rest hfd hq hlen]
  simp only [closeSocket, log, hfd]
  refine ⟨?_, ?_, ?_, ?_, ?_, ?_, ?_⟩ <;> simp <;> split <;> simp [Platform.close]

theorem getEpochTime_cast (c : GrugNTPClient) (now : Nat) :
    ((getEpochTime c now : Nat) : Int)
      = (c._timeOffset + (c._currentEpoc : Int)
          + (((now : Int) - (c._lastUpdate : Int)) % 4294967296) / 1000) % 4294967296 := by
  unfold getEpochTime addU32
  have h1 := toU32_cast c._timeOffset
  have h2 := subU32_cast now c._lastUpdate
  have h3 : ((subU32 now c._lastUpdate / 1000 : Nat) : Int)
      = (((now : Int) - (c._lastUpdate : Int)) % 4294967296) / 1000 := by
    rw [← h2]; norm_cast
  rw [← h3]
  omega

theorem subU32_elapsed (last e : Nat) (he : e < 4294967296) :
    subU32 ((last + e) % 4294967296) last = e := by
  have h := subU32_cast ((last + e) % 4294967296) last
  omega

/-- The value of `getEpochTime` when `e < 2^32` milliseconds have elapsed since the
last update, whether or not the tick counter has wrapped in between. -/
theorem getEpochTime_after (c : GrugNTPClient) (e : Nat) (he : e < 4294967296) :
    ((getEpochTime c ((c._lastUpdate + e) % 4294967296) : Nat) : Int)
      = (c._timeOffset + (c._currentEpoc : Int) + ((e / 1000 : Nat) : Int)) % 4294967296 := by
  have h := subU32_elapsed c._lastUpdate e he
  unfold getEpochTime addU32
  rw [h]
  have h1 := toU32_cast c._timeOffset
  omega

/-! ## The claims -/

/-- C1: for every engine state with an open transport and every reply of exactly
48 bytes returned by the read, `receiveUpdate` returns `true` and stores in
`_currentEpoc` the value `(X - 2208988800) mod 2^32`, where `X` is the big-endian
value of reply bytes 40..43; the stored value is `X - 2208988800` itself whenever
`X ≥ 2208988800`; and any other call that reads a 48-byte reply with the same
four bytes stores the same value, whatever the state, the environment and the
other bytes of the reply are. -/
theorem receiveUpdate_stores_transmit_seconds (e : Env) (s : Sys) (d : List Nat)
    (rest : List (List Nat)) (hfd : 0 ≤ s.c._sockfd) (hq : s.p.rxQueue = d :: rest)
    (hlen : d.length = 48) (hbytes : ∀ b ∈ d, b < 256) :
    (receiveUpdate e s).1 = true
    ∧ (((receiveUpdate e s).2.c._currentEpoc : Nat) : Int)
        = ((transmitSeconds d : Int) - 2208988800) % 4294967296
    ∧ (2208988800 ≤ transmitSeconds d →
        (receiveUpdate e s).2.c._currentEpoc = transmitSeconds d - 2208988800)
    ∧ (∀ (e2 : Env) (s2 : Sys) (d2 : List Nat) (rest2 : List (List Nat)),
        0 ≤ s2.c._sockfd → s2.p.rxQueue = d2 :: rest2 → d2.length = 48 →
        (∀ b ∈ d2, b < 256) →
        d2.getD 40 0 = d.getD 40 0 → d2.getD 41 0 = d.getD 41 0 →
        d2.getD 42 0 = d.getD 42 0 → d2.getD 43 0 = d.getD 43 0 →
        (receiveUpdate e2 s2).2.c._currentEpoc = (receiveUpdate e s).2.c._currentEpoc) := by
  have key : ∀ (e1 : Env) (s1 : Sys) (d1 : List Nat) (rest1 : List (List Nat)),
      0 ≤ s1.c._sockfd → s1.p.rxQueue = d1 :: rest1 → d1.length = 48 →
      (∀ b ∈ d1, b < 256) →
      (receiveUpdate e1 s1).2.c._currentEpoc = subU32 (transmitSeconds d1) SEVENZYYEARS := by
    intro e1 s1 d1 rest1 h1 h2 h3 h4
    have hb : ∀ i, i < 48 → d1.getD i 0 % 256 = d1.getD i 0 := by
      intro i hi
      apply Nat.mod_eq_of_lt
      have hi2 : i < d1.length := by omega
      rw [List.getD_eq_getElem?_getD, List.getElem?_eq_getElem hi2]
      exact h4 _ (List.getElem_mem hi2)
    rw [(receiveUpdate_full e1 s1 d1 rest1 h1 h2 h3).2.2.2.1, secsSince1900_eq]
    simp only [storeDatagram_getD _ d1 _ h3 (by decide : 40 < 48),
      storeDatagram_getD _ d1 _ h3 (by decide : 41 < 48),
      storeDatagram_getD _ d1 _ h3 (by decide : 42 < 48),
      storeDatagram_getD _ d1 _ h3 (by decide : 43 < 48), Nat.mod_mod,
      hb 40 (by decide), hb 41 (by decide), hb 42 (by decide), hb 43 (by decide)]
    rfl
  have hk := key e s d rest hfd hq hlen hbytes
  have hc := subU32_cast (transmitSeconds d) SEVENZYYEARS
  refine ⟨(receiveUpdate_full e s d rest hfd hq hlen).1, ?_, ?_, ?_⟩
  · rw [hk, hc]; rfl
  · intro hX
    rw [hk]
    have hlt : transmitSeconds d < 4294967296 := by
      have hb : ∀ i, d.getD i 0 < 256 := by
        intro i
        rw [List.getD_eq_getElem?_getD]
        cases hi : d[i]? with
        | none => simp
        | some b => simpa using hbytes b (List.getElem?_mem hi)
      have h40 := hb 40
      have h41 := hb 41
      have h42 := hb 42
      have h43 := hb 43
      unfold transmitSeconds
      omega
    unfold SEVENZYYEARS at hc ⊢
    omega
  · intro e2 s2 d2 rest2 h1 h2 h3 h4 g40 g41 g42 g43
    rw [hk, key e2 s2 d2 rest2 h1 h2 h3 h4]
    unfold transmitSeconds
    rw [g40, g41, g42, g43]

/-- Witness for C1: a reply whose transmit-seconds field is 3855542304, read on
an open socket, is stored as 1646553504 (2022-03-06T07:58:24). -/
theorem receiveUpdate_stores_transmit_seconds_witness :
    (0 ≤ sampleAwaiting.c._sockfd ∧ sampleAwaiting.p.rxQueue = sampleReply :: []
      ∧ sampleReply.length = 48 ∧ ∀ b ∈ sampleReply, b < 256)
    ∧ (receiveUpdate sampleEnv sampleAwaiting).1 = true
    ∧ (receiveUpdate sampleEnv sampleAwaiting).2.c._currentEpoc = 1646553504 :=
  ⟨⟨by decide, rfl, by decide, by decide⟩,
   (receiveUpdate_stores_transmit_seconds sampleEnv sampleAwaiting sampleReply []
      (by decide) rfl (by decide) (by decide)).1,
   (receiveUpdate_stores_transmit_seconds sampleEnv sampleAwaiting sampleReply []
      (by decide) rfl (by decide) (by decide)).2.2.1 (by decide)⟩

/-- C2: for every engine state and every tick reading `now`, `getEpochTime`
returns `(time_offset + epoch_at_last_update + floor(((now - last_update_tick)
mod 2^32) / 1000)) mod 2^32`; being a function of the engine's fields and the
tick alone it changes no field.  Consequently, when `e < 2^32` milliseconds have
elapsed since the last update and the tick counter reads `(last_update_tick + e)
mod 2^32`, wrapped or not, the elapsed term is exactly `floor(e / 1000)`. -/
theorem getEpochTime_modular (c : GrugNTPClient) (now e : Nat) (he : e < 4294967296) :
    ((getEpochTime c now : Nat) : Int)
      = (c._timeOffset + (c._currentEpoc : Int)
          + (((now : Int) - (c._lastUpdate : Int)) % 4294967296) / 1000) % 4294967296
    ∧ subU32 ((c._lastUpdate + e) % 4294967296) c._lastUpdate / 1000 = e / 1000
    ∧ ((getEpochTime c ((c._lastUpdate + e) % 4294967296) : Nat) : Int)
      = (c._timeOffset + (c._currentEpoc : Int) + ((e / 1000 : Nat) : Int)) % 4294967296 := by
  refine ⟨getEpochTime_cast c now, ?_, getEpochTime_after c e he⟩
  rw [subU32_elapsed _ _ he]

/-- Witness for C2: the last update was taken 296 ms before the tick counter
wrapped and 5000 ms have elapsed since; the counter reads 4704 and the engine
reports 5 s more than its baseline. -/
theorem getEpochTime_modular_witness :
    (5000 : Nat) < 4294967296
    ∧ getEpochTime sampleSynced 4704 = 1646553509
    ∧ subU32 ((sampleSynced._lastUpdate + 5000) % 4294967296) sampleSynced._lastUpdate / 1000
        = 5000 / 1000 :=
  ⟨by decide, by decide,
   (getEpochTime_modular sampleSynced 4704 5000 (by decide)).2.1⟩

/-- C3, as stated, fails: `getEpochTime` is computed in `uint32_t` and wraps.
On a fresh engine with time offset -3600 the reading at tick 0 is 4294963696 and
the reading one hour of ticks later is 0; and right after a successful receive at
tick 5000 of a reply with transmit seconds 2208988799 the reading is 4294967295,
while one second of ticks later it is 0. -/
theorem getEpochTime_wraps_downward :
    (sampleWest._lastUpdate ≤ 0 ∧ (0 : Nat) ≤ 3600000
      ∧ getEpochTime sampleWest 0 = 4294963696
      ∧ getEpochTime sampleWest 3600000 = 0
      ∧ ¬ getEpochTime sampleWest 0 ≤ getEpochTime sampleWest 3600000)
    ∧ ((receiveUpdate sampleEnv (awaitingWith (replyWith 131 170 126 127))).1 = true
      ∧ (receiveUpdate sampleEnv (awaitingWith (replyWith 131 170 126 127))).2.c._lastUpdate = 5000
      ∧ getEpochTime (receiveUpdate sampleEnv (awaitingWith (replyWith 131 170 126 127))).2.c 5000
          = 4294967295
      ∧ getEpochTime (receiveUpdate sampleEnv (awaitingWith (replyWith 131 170 126 127))).2.c 6000
          = 0) := by
  refine ⟨⟨by decide, by decide, by decide, by decide, by decide⟩, ?_, ?_, ?_, ?_⟩ <;> decide

/-- C3, amended: between successful syncs `getEpochTime` is non-decreasing as long
as its 32-bit result does not wrap.  For two readings of the tick counter taken
`e1 ≤ e2 < 2^32` milliseconds after the last update (the counter itself may have
wrapped), if the exact sum `time_offset + epoch_at_last_update + floor(e / 1000)`
is at least 0 at the first reading and below `2^32` at the second, the value at
the first reading is at most the value at the second. -/
theorem getEpochTime_monotone_of_no_wrap (c : GrugNTPClient) (e1 e2 : Nat)
    (h12 : e1 ≤ e2) (he : e2 < 4294967296)
    (hlo : 0 ≤ c._timeOffset + (c._currentEpoc : Int) + ((e1 / 1000 : Nat) : Int))
    (hhi : c._timeOffset + (c._currentEpoc : Int) + ((e2 / 1000 : Nat) : Int) < 4294967296) :
    getEpochTime c ((c._lastUpdate + e1) % 4294967296)
      ≤ getEpochTime c ((c._lastUpdate + e2) % 4294967296) := by
  have h1 := getEpochTime_after c e1 (by omega)
  have h2 := getEpochTime_after c e2 he
  have hd : e1 / 1000 ≤ e2 / 1000 := Nat.div_le_div_right h12
  omega

/-- Witness for C3 (amended): an engine synced to 1646553504 shortly before the
tick counter wraps, read 1000 ms and 5000 ms later. -/
theorem getEpochTime_monotone_of_no_wrap_witness :
    ((1000 : Nat) ≤ 5000 ∧ (5000 : Nat) < 4294967296
      ∧ 0 ≤ sampleSynced._timeOffset + (sampleSynced._currentEpoc : Int)
            + ((1000 / 1000 : Nat) : Int)
      ∧ sampleSynced._timeOffset + (sampleSynced._currentEpoc : Int)
            + ((5000 / 1000 : Nat) : Int) < 4294967296)
    ∧ getEpochTime sampleSynced ((sampleSynced._lastUpdate + 1000) % 4294967296)
        ≤ getEpochTime sampleSynced ((sampleSynced._lastUpdate + 5000) % 4294967296) :=
  ⟨⟨by decide, by decide, by decide, by decide⟩,
   getEpochTime_monotone_of_no_wrap sampleSynced 1000 5000 (by decide) (by decide)
     (by decide) (by decide)⟩

/-- The value of `receiveUpdate` is the value of its single `receiveNTPPacket`. -/
theorem receiveUpdate_fst (e : Env) (s : Sys) :
    (receiveUpdate e s).1 = (receiveNTPPacket s).1 := by
  unfold receiveUpdate
  by_cases h : (receiveNTPPacket s).1 = false
  · simp [h]
  · simp [h]

/-- A `receiveUpdate` whose read does not yield a full datagram stops there. -/
theorem receiveUpdate_of_no_read (e : Env) (s : Sys) (h : (receiveNTPPacket s).1 = false) :
    receiveUpdate e s = (false, (receiveNTPPacket s).2) := by
  unfold receiveUpdate
  simp [h]

/-- A read that yields a full datagram was made on an open socket. -/
theorem receiveNTPPacket_true_fd (s : Sys) (h : (receiveNTPPacket s).1 = true) :
    0 ≤ s.c._sockfd := by
  unfold receiveNTPPacket at h
  by_contra hfd
  simp [not_le.mp hfd] at h

/-- The read leaves every field of the engine but the packet buffer alone, and of
the platform it touches only the receive queue. -/
theorem receiveNTPPacket_frame (s : Sys) :
    (receiveNTPPacket s).2.c = { s.c with _packetBuffer := (receiveNTPPacket s).2.c._packetBuffer }
    ∧ (receiveNTPPacket s).2.p = { s.p with rxQueue := (receiveNTPPacket s).2.p.rxQueue } := by
  unfold receiveNTPPacket recvfrom
  split
  · exact ⟨rfl, rfl⟩
  · split <;> exact ⟨rfl, rfl⟩

/-- What a `receiveUpdate` whose read yields a full datagram leaves behind. -/
theorem receiveUpdate_of_read (e : Env) (s : Sys) (h : (receiveNTPPacket s).1 = true) :
    (receiveUpdate e s).1 = true
    ∧ (receiveUpdate e s).2.c._sockfd = -1
    ∧ (receiveUpdate e s).2.c._lastUpdate = e.now
    ∧ (receiveUpdate e s).2.c._currentEpoc
        = subU32 (secsSince1900 (receiveNTPPacket s).2.c._packetBuffer) SEVENZYYEARS
    ∧ (receiveUpdate e s).2.c.timeout = Timeout.arm e.timerNow s.c._updateInterval
    ∧ (receiveUpdate e s).2.p.openSockets = s.p.openSockets.erase s.c._sockfd
    ∧ (receiveUpdate e s).2.c._timeOffset = s.c._timeOffset
    ∧ (receiveUpdate e s).2.c._updateInterval = s.c._updateInterval := by
  have hfd := receiveNTPPacket_true_fd s h
  obtain ⟨hc, hp⟩ := receiveNTPPacket_frame s
  have hfd2 : 0 ≤ (receiveNTPPacket s).2.c._sockfd := by rw [hc]; exact hfd
  have hu : (receiveNTPPacket s).2.c._updateInterval = s.c._updateInterval := by rw [hc]
  have ho : (receiveNTPPacket s).2.c._timeOffset = s.c._timeOffset := by rw [hc]
  have hs : (receiveNTPPacket s).2.c._sockfd = s.c._sockfd := by rw [hc]
  have hos : (receiveNTPPacket s).2.p.openSockets = s.p.openSockets := by rw [hp]
  unfold receiveUpdate
  simp only [h, closeSocket, log, hfd2]
  refine ⟨?_, ?_, ?_, ?_, ?_, ?_, ?_, ?_⟩ <;> simp <;> split <;>
    simp [Platform.close, hu, ho, hs, hos]

/-- C4 fails on the code: after a full exchange in which the reply carries
transmit seconds 2208988800, one `receiveUpdate` has returned `true` (the reply was
received and processed, the wall clock was set to 0) and `isTimeSet` still returns
`false`, because `_currentEpoc`, which `isTimeSet` tests, was set to 0. -/
theorem isTimeSet_false_after_successful_receive :
    successfulReceives sampleFresh exchangeEpochZero = 1
    ∧ (run sampleFresh exchangeEpochZero).p.clockSets = [0]
    ∧ (run sampleFresh exchangeEpochZero).c._currentEpoc = 0
    ∧ isTimeSet (run sampleFresh exchangeEpochZero).c = false := by
  refine ⟨?_, ?_, ?_, ?_⟩ <;> decide

/-- C5: whenever `receiveUpdate` returns `true`, a transport was open before the
call, on return `_sockfd` is -1 and that handle has been closed (it is removed
from the platform's open handles, which leaves none open when it was the only
one), and the retry timer is armed with `_updateInterval`, whatever its previous
arming was. -/
theorem receiveUpdate_true_closes_and_arms (e : Env) (s : Sys)
    (h : (receiveUpdate e s).1 = true) :
    0 ≤ s.c._sockfd
    ∧ (receiveUpdate e s).2.c._sockfd = -1
    ∧ (receiveUpdate e s).2.p.openSockets = s.p.openSockets.erase s.c._sockfd
    ∧ (s.p.openSockets = [s.c._sockfd] → (receiveUpdate e s).2.p.openSockets = [])
    ∧ (receiveUpdate e s).2.c.timeout.duration = (receiveUpdate e s).2.c._updateInterval
    ∧ (receiveUpdate e s).2.c.timeout = Timeout.arm e.timerNow s.c._updateInterval := by
  rw [receiveUpdate_fst] at h
  have hr := receiveUpdate_of_read e s h
  refine ⟨receiveNTPPacket_true_fd s h, hr.2.1, hr.2.2.2.2.2.1, ?_, ?_, hr.2.2.2.2.1⟩
  · intro ho
    rw [hr.2.2.2.2.2.1, ho]
    simp
  · rw [hr.2.2.2.2.1, hr.2.2.2.2.2.2.2]
    rfl

/-- Witness for C5: the awaited reply is received on socket 3, the only open
handle, while the timer is still armed with the retry interval. -/
theorem receiveUpdate_true_closes_and_arms_witness :
    (receiveUpdate sampleEnv sampleAwaiting).1 = true
    ∧ sampleAwaiting.c.timeout.duration = 10000
    ∧ (receiveUpdate sampleEnv sampleAwaiting).2.c._sockfd = -1
    ∧ (receiveUpdate sampleEnv sampleAwaiting).2.p.openSockets = []
    ∧ (receiveUpdate sampleEnv sampleAwaiting).2.c.timeout = Timeout.arm 5000 60000 :=
  ⟨by decide, by decide,
   (receiveUpdate_true_closes_and_arms sampleEnv sampleAwaiting (by decide)).2.1,
   (receiveUpdate_true_closes_and_arms sampleEnv sampleAwaiting (by decide)).2.2.2.1 (by decide),
   (receiveUpdate_true_closes_and_arms sampleEnv sampleAwaiting (by decide)).2.2.2.2.2⟩

/-! ## Frame facts of the send path -/

theorem closeSocket_c (s : Sys) :
    (closeSocket s).c = { s.c with _sockfd := (closeSocket s).c._sockfd } := by
  unfold closeSocket
  split <;> rfl

theorem closeSocket_fd (s : Sys) : (closeSocket s).c._sockfd < 0 := by
  unfold closeSocket
  split
  · simp
  · omega

theorem err_c (op : ErrOp) (s : Sys) :
    (err op s).c = { s.c with _sockfd := (err op s).c._sockfd } := by
  unfold err
  rw [closeSocket_c]
  rfl

theorem err_timeout (op : ErrOp) (s : Sys) : (err op s).c.timeout = s.c.timeout := by
  rw [err_c]

theorem err_fd (op : ErrOp) (s : Sys) : (err op s).c._sockfd < 0 :=
  closeSocket_fd _

theorem err_sentLog (op : ErrOp) (s : Sys) : (err op s).p.sentLog = s.p.sentLog := by
  unfold err closeSocket log
  split <;> rfl

theorem drainLoop_c (n : Nat) (s : Sys) :
    (drainLoop n s).c = { s.c with _packetBuffer := (drainLoop n s).c._packetBuffer } := by
  induction n generalizing s with
  | zero => rfl
  | succ n ih =>
    unfold drainLoop
    simp only []
    split
    · rw [ih, (receiveNTPPacket_frame s).1]
    · exact (receiveNTPPacket_frame s).1

theorem drain_c (s : Sys) :
    (drain s).c = { s.c with _packetBuffer := (drain s).c._packetBuffer } :=
  drainLoop_c _ s

theorem buildRequest_c (s : Sys) :
    (buildRequest s).c = { s.c with _packetBuffer := (buildRequest s).c._packetBuffer } := rfl

theorem transmit_c (e : Env) (s : Sys) :
    (transmit e s).2.c = { s.c with _sockfd := (transmit e s).2.c._sockfd,
                                    timeout := (transmit e s).2.c.timeout } := by
  unfold transmit
  simp only []
  split
  · conv_lhs => rw [err_c]
    simp [err_timeout]
  · rfl

theorem openSocket_c (e : Env) (s s1 : Sys)
    (h : openSocket e s = .ok s1 ∨ openSocket e s = .error s1) :
    s1.c = { s.c with _sockfd := s1.c._sockfd } := by
  unfold openSocket at h
  simp only [] at h
  split at h
  · split at h
    · simp at h; subst h; rw [err_c]
    · split at h
      · simp at h; subst h; rw [err_c]
      · split at h
        · simp at h; subst h; rw [err_c]
        · simp at h; subst h; rfl
  · simp at h; subst h; rfl

/-- The failure exit of name resolution. -/
theorem forceUpdate_dns_failure (e : Env) (s : Sys) (hw : e.wifiConnected = true)
    (ha : s.c._serverIP.s_addr = 0) (hd : e.hostent = none) :
    forceUpdate e s = (false, err .gethostbyname
      (if s.c._errorCounter < MAX_DNS_ERRORS then
        { s with c := { s.c with _errorCounter := s.c._errorCounter + 1,
                                 timeout := Timeout.arm e.timerNow s.c._retryInterval } }
      else
        { s with c := { s.c with timeout := Timeout.arm e.timerNow s.c._errorInterval } })) := by
  unfold forceUpdate resolveServer
  by_cases hc : s.c._errorCounter < MAX_DNS_ERRORS <;> simp [hw, ha, hd, hc]

/-- A failed resolution with the counter still below the threshold. -/
theorem forceUpdate_dns_failure_counting (e : Env) (s : Sys) (hw : e.wifiConnected = true)
    (ha : s.c._serverIP.s_addr = 0) (hd : e.hostent = none)
    (hc : s.c._errorCounter < MAX_DNS_ERRORS) :
    (forceUpdate e s).1 = false
    ∧ (forceUpdate e s).2.c._errorCounter = s.c._errorCounter + 1
    ∧ (forceUpdate e s).2.c.timeout = Timeout.arm e.timerNow s.c._retryInterval
    ∧ (forceUpdate e s).2.c._serverIP = s.c._serverIP
    ∧ (forceUpdate e s).2.c._retryInterval = s.c._retryInterval
    ∧ (forceUpdate e s).2.c._errorInterval = s.c._errorInterval
    ∧ (forceUpdate e s).2.p.sentLog = s.p.sentLog := by
  rw [forceUpdate_dns_failure e s hw ha hd]
  simp only [hc, if_true, err_sentLog]
  refine ⟨trivial, ?_, ?_, ?_, ?_, ?_, trivial⟩ <;> rw [err_c]

/-- A failed resolution with the counter at or above the threshold. -/
theorem forceUpdate_dns_failure_saturated (e : Env) (s : Sys) (hw : e.wifiConnected = true)
    (ha : s.c._serverIP.s_addr = 0) (hd : e.hostent = none)
    (hc : ¬ s.c._errorCounter < MAX_DNS_ERRORS) :
    (forceUpdate e s).1 = false
    ∧ (forceUpdate e s).2.c._errorCounter = s.c._errorCounter
    ∧ (forceUpdate e s).2.c.timeout = Timeout.arm e.timerNow s.c._errorInterval
    ∧ (forceUpdate e s).2.c._serverIP = s.c._serverIP
    ∧ (forceUpdate e s).2.c._retryInterval = s.c._retryInterval
    ∧ (forceUpdate e s).2.c._errorInterval = s.c._errorInterval
    ∧ (forceUpdate e s).2.p.sentLog = s.p.sentLog := by
  rw [forceUpdate_dns_failure e s hw ha hd]
  simp only [hc, if_false, err_sentLog]
  refine ⟨trivial, ?_, ?_, ?_, ?_, ?_, trivial⟩ <;> rw [err_c]

/-- C6: with the link connected, no cached server address and `dns_error_count = c`
where `c + 1 < MAX_DNS_ERRORS`, a `forceUpdate` whose resolution fails returns
`false`, sets the counter to `c + 1`, arms the retry timer with `interval_retry`,
leaves the address uncached and calls `sendto` not at all; in particular one
failed resolution on a freshly constructed engine leaves the counter at 1 with
the timer armed with that engine's `interval_retry`. -/
theorem forceUpdate_first_dns_failures (e : Env) (s : Sys) (hw : e.wifiConnected = true)
    (ha : s.c._serverIP.s_addr = 0) (hd : e.hostent = none)
    (hc : s.c._errorCounter + 1 < MAX_DNS_ERRORS) :
    ((forceUpdate e s).1 = false
      ∧ (forceUpdate e s).2.c._errorCounter = s.c._errorCounter + 1
      ∧ (forceUpdate e s).2.c.timeout = Timeout.arm e.timerNow s.c._retryInterval
      ∧ (forceUpdate e s).2.c.timeout.duration = (forceUpdate e s).2.c._retryInterval
      ∧ (forceUpdate e s).2.c._serverIP.s_addr = 0
      ∧ (forceUpdate e s).2.p.sentLog = s.p.sentLog)
    ∧ (∀ (name : String) (off : Int) (u r x : Nat),
        (forceUpdate e (Sys.fresh name off u r x)).1 = false
        ∧ (forceUpdate e (Sys.fresh name off u r x)).2.c._errorCounter = 1
        ∧ (forceUpdate e (Sys.fresh name off u r x)).2.c.timeout = Timeout.arm e.timerNow r) := by
  have hlt : s.c._errorCounter < MAX_DNS_ERRORS := by
    unfold MAX_DNS_ERRORS at hc ⊢
    omega
  have h := forceUpdate_dns_failure_counting e s hw ha hd hlt
  refine ⟨⟨h.1, h.2.1, h.2.2.1, ?_, ?_, h.2.2.2.2.2.2⟩, ?_⟩
  · rw [h.2.2.1, h.2.2.2.2.1]; rfl
  · rw [h.2.2.2.1]; exact ha
  · intro name off u r x
    have hf := forceUpdate_dns_failure_counting e (Sys.fresh name off u r x) hw rfl hd
      (by show (0 : Int) < 10; omega)
    exact ⟨hf.1, hf.2.1, hf.2.2.1⟩

/-- Witness for C6: the first failed resolution on a fresh engine. -/
theorem forceUpdate_first_dns_failures_witness :
    (sampleEnvNoDns.wifiConnected = true ∧ sampleFresh.c._serverIP.s_addr = 0
      ∧ sampleEnvNoDns.hostent = none ∧ sampleFresh.c._errorCounter + 1 < MAX_DNS_ERRORS)
    ∧ (forceUpdate sampleEnvNoDns sampleFresh).1 = false
    ∧ (forceUpdate sampleEnvNoDns sampleFresh).2.c._errorCounter = 0 + 1
    ∧ (forceUpdate sampleEnvNoDns sampleFresh).2.c.timeout = Timeout.arm 5000 10000
    ∧ (forceUpdate sampleEnvNoDns sampleFresh).2.p.sentLog = [] :=
  ⟨⟨rfl, rfl, rfl, by decide⟩,
   (forceUpdate_first_dns_failures sampleEnvNoDns sampleFresh rfl rfl rfl (by decide)).1.1,
   (forceUpdate_first_dns_failures sampleEnvNoDns sampleFresh rfl rfl rfl (by decide)).1.2.1,
   (forceUpdate_first_dns_failures sampleEnvNoDns sampleFresh rfl rfl rfl (by decide)).1.2.2.1,
   (forceUpdate_first_dns_failures sampleEnvNoDns sampleFresh rfl rfl rfl (by decide)).1.2.2.2.2.2⟩

theorem run_append (s : Sys) (ops1 ops2 : List Op) :
    run s (ops1 ++ ops2) = run (run s ops1) ops2 := by
  induction ops1 generalizing s with
  | nil => rfl
  | cons op ops ih => exact ih _

/-- Consecutive failed resolutions count up to the threshold and stay there. -/
theorem run_dns_failures (es : List Env) (s : Sys) (ha : s.c._serverIP.s_addr = 0)
    (h0 : 0 ≤ s.c._errorCounter) (h1 : s.c._errorCounter ≤ MAX_DNS_ERRORS)
    (hes : ∀ e ∈ es, e.wifiConnected = true ∧ e.hostent = none) :
    (run s (es.map Op.forceUpdate)).c._serverIP.s_addr = 0
    ∧ (run s (es.map Op.forceUpdate)).c._errorCounter
        = min (s.c._errorCounter + es.length) MAX_DNS_ERRORS
    ∧ (run s (es.map Op.forceUpdate)).c._retryInterval = s.c._retryInterval
    ∧ (run s (es.map Op.forceUpdate)).c._errorInterval = s.c._errorInterval := by
  induction es generalizing s with
  | nil =>
    refine ⟨ha, ?_, rfl, rfl⟩
    simp only [List.map_nil, run, List.length_nil]
    omega
  | cons e es ih =>
    have he := hes e (List.mem_cons_self _ _)
    have hes2 : ∀ e2 ∈ es, e2.wifiConnected = true ∧ e2.hostent = none :=
      fun e2 h2 => hes e2 (List.mem_cons_of_mem _ h2)
    simp only [List.map_cons, run, step, List.length_cons]
    by_cases hc : s.c._errorCounter < MAX_DNS_ERRORS
    · have hf := forceUpdate_dns_failure_counting e s he.1 ha he.2 hc
      have hi := ih (forceUpdate e s).2 (by rw [hf.2.2.2.1]; exact ha)
        (by rw [hf.2.1]; omega) (by rw [hf.2.1]; omega) hes2
      refine ⟨hi.1, ?_, ?_, ?_⟩
      · rw [hi.2.1, hf.2.1]; push_cast; omega
      · rw [hi.2.2.1, hf.2.2.2.2.1]
      · rw [hi.2.2.2, hf.2.2.2.2.2.1]
    · have hf := forceUpdate_dns_failure_saturated e s he.1 ha he.2 hc
      have hi := ih (forceUpdate e s).2 (by rw [hf.2.2.2.1]; exact ha)
        (by rw [hf.2.1]; omega) (by rw [hf.2.1]; omega) hes2
      refine ⟨hi.1, ?_, ?_, ?_⟩
      · rw [hi.2.1, hf.2.1]; push_cast; omega
      · rw [hi.2.2.1, hf.2.2.2.2.1]
      · rw [hi.2.2.2, hf.2.2.2.2.2.1]

/-- C7, as stated, fails: on a fresh engine with `interval_retry = 10000` and
`interval_error = 3600000`, after nine consecutive failed resolutions the counter
is 9; the tenth failed `forceUpdate` brings it to `MAX_DNS_ERRORS = 10` and arms
the timer with `interval_retry`, not with `interval_error`. -/
theorem tenth_dns_failure_arms_retry :
    (afterDnsFailures 9).c._errorCounter = 9
    ∧ (forceUpdate sampleEnvNoDns (afterDnsFailures 9)).1 = false
    ∧ (forceUpdate sampleEnvNoDns (afterDnsFailures 9)).2.c._errorCounter = MAX_DNS_ERRORS
    ∧ (forceUpdate sampleEnvNoDns (afterDnsFailures 9)).2.c.timeout.duration
        = (afterDnsFailures 9).c._retryInterval
    ∧ (forceUpdate sampleEnvNoDns (afterDnsFailures 9)).2.c.timeout.duration
        ≠ (afterDnsFailures 9).c._errorInterval := by
  refine ⟨?_, ?_, ?_, ?_, ?_⟩ <;> decide

/-- C7, amended: starting from a fresh engine, with the link connected and every
resolution failing, each of the first `MAX_DNS_ERRORS` consecutive failed
`forceUpdate` calls arms the timer with `interval_retry` (the tenth brings the
counter up to the threshold), and the `(MAX_DNS_ERRORS + 1)`-th and every later
consecutive failure arms it with `interval_error` and leaves the counter at the
threshold.  The call considered comes after `es.length` earlier failures. -/
theorem dns_failures_arm_retry_then_error (name : String) (off : Int) (u r x : Nat)
    (es : List Env) (e : Env)
    (hes : ∀ e2 ∈ es, e2.wifiConnected = true ∧ e2.hostent = none)
    (hw : e.wifiConnected = true) (hd : e.hostent = none) :
    (forceUpdate e (run (Sys.fresh name off u r x) (es.map Op.forceUpdate))).1 = false
    ∧ (es.length + 1 ≤ 10 →
        (forceUpdate e (run (Sys.fresh name off u r x) (es.map Op.forceUpdate))).2.c.timeout
          = Timeout.arm e.timerNow r
        ∧ (forceUpdate e (run (Sys.fresh name off u r x)
            (es.map Op.forceUpdate))).2.c._errorCounter = ((es.length + 1 : Nat) : Int))
    ∧ (10 < es.length + 1 →
        (forceUpdate e (run (Sys.fresh name off u r x) (es.map Op.forceUpdate))).2.c.timeout
          = Timeout.arm e.timerNow x
        ∧ (forceUpdate e (run (Sys.fresh name off u r x)
            (es.map Op.forceUpdate))).2.c._errorCounter = MAX_DNS_ERRORS) := by
  have hr := run_dns_failures es (Sys.fresh name off u r x) rfl
    (by show (0 : Int) ≤ 0; omega) (by show (0 : Int) ≤ 10; omega) hes
  have hcnt : (run (Sys.fresh name off u r x) (es.map Op.forceUpdate)).c._errorCounter
      = min ((es.length : Nat) : Int) 10 := by
    rw [hr.2.1]
    show min ((0 : Int) + _) 10 = _
    rw [Int.zero_add]
  have hret : (run (Sys.fresh name off u r x) (es.map Op.forceUpdate)).c._retryInterval = r :=
    hr.2.2.1
  have herr : (run (Sys.fresh name off u r x) (es.map Op.forceUpdate)).c._errorInterval = x :=
    hr.2.2.2
  by_cases hlen : es.length + 1 ≤ 10
  · have hc : (run (Sys.fresh name off u r x) (es.map Op.forceUpdate)).c._errorCounter
        < MAX_DNS_ERRORS := by
      rw [hcnt]; unfold MAX_DNS_ERRORS; omega
    have hf := forceUpdate_dns_failure_counting e _ hw hr.1 hd hc
    refine ⟨hf.1, fun _ => ⟨?_, ?_⟩, fun h => absurd h (by omega)⟩
    · rw [hf.2.2.1, hret]
    · rw [hf.2.1, hcnt]; push_cast; omega
  · have hc : ¬ (run (Sys.fresh name off u r x) (es.map Op.forceUpdate)).c._errorCounter
        < MAX_DNS_ERRORS := by
      rw [hcnt]; unfold MAX_DNS_ERRORS; omega
    have hf := forceUpdate_dns_failure_saturated e _ hw hr.1 hd hc
    refine ⟨hf.1, fun h => absurd h hlen, fun _ => ⟨?_, ?_⟩⟩
    · rw [hf.2.2.1, herr]
    · rw [hf.2.1, hcnt]; unfold MAX_DNS_ERRORS; omega

/-- Witness for C7 (amended): the eleventh consecutive failure on a fresh engine
arms the timer with `interval_error`. -/
theorem dns_failures_arm_retry_then_error_witness :
    ((∀ e2 ∈ List.replicate 10 sampleEnvNoDns, e2.wifiConnected = true ∧ e2.hostent = none)
      ∧ sampleEnvNoDns.wifiConnected = true ∧ sampleEnvNoDns.hostent = none)
    ∧ (forceUpdate sampleEnvNoDns (run (Sys.fresh "pool.ntp.org" 0 60000 10000 3600000)
        ((List.replicate 10 sampleEnvNoDns).map Op.forceUpdate))).2.c.timeout
        = Timeout.arm sampleEnvNoDns.timerNow 3600000 :=
  ⟨⟨by decide, rfl, rfl⟩,
   ((dns_failures_arm_retry_then_error "pool.ntp.org" 0 60000 10000 3600000
      (List.replicate 10 sampleEnvNoDns) sampleEnvNoDns (by decide) rfl rfl).2.2
      (by decide)).1⟩

theorem resolveServer_cached (e : Env) (s : Sys) (ha : s.c._serverIP.s_addr ≠ 0) :
    resolveServer e s = .ok s := by
  unfold resolveServer
  simp [ha]

theorem resolveServer_resolved (e : Env) (s : Sys) (a : Nat) (ha : s.c._serverIP.s_addr = 0)
    (hd : e.hostent = some a) : resolveServer e s = .ok (resolved a s) := by
  unfold resolveServer resolved
  simp [ha, hd]

/-- The stages after name resolution leave `sendFrame` alone. -/
theorem sendStages_frame (e : Env) (s1 : Sys) :
    sendFrame (match openSocket e s1 with
      | .error s2 => (false, s2)
      | .ok s2 => transmit e (buildRequest (drain s2))).2.c = sendFrame s1.c := by
  cases h : openSocket e s1 with
  | error s2 =>
    show sendFrame s2.c = _
    rw [openSocket_c e s1 s2 (Or.inr h)]
    rfl
  | ok s2 =>
    show sendFrame (transmit e (buildRequest (drain s2))).2.c = _
    rw [transmit_c, buildRequest_c, drain_c, openSocket_c e s1 s2 (Or.inl h)]
    rfl

theorem forceUpdate_of_cached (e : Env) (s : Sys) (hw : e.wifiConnected = true)
    (ha : s.c._serverIP.s_addr ≠ 0) :
    forceUpdate e s = (match openSocket e s with
      | .error s2 => (false, s2)
      | .ok s2 => transmit e (buildRequest (drain s2))) := by
  unfold forceUpdate
  simp [hw, resolveServer_cached e s ha]

theorem forceUpdate_of_resolved (e : Env) (s : Sys) (a : Nat) (hw : e.wifiConnected = true)
    (ha : s.c._serverIP.s_addr = 0) (hd : e.hostent = some a) :
    forceUpdate e s = (match openSocket e (resolved a s) with
      | .error s2 => (false, s2)
      | .ok s2 => transmit e (buildRequest (drain s2))) := by
  unfold forceUpdate
  simp [hw, resolveServer_resolved e s a ha hd]

theorem forceUpdate_link_down (e : Env) (s : Sys) (hw : e.wifiConnected = false) :
    forceUpdate e s = (false, s) := by
  unfold forceUpdate
  simp [hw]

/-- The effect of `forceUpdate` on the counter of failed resolutions. -/
theorem forceUpdate_errorCounter (e : Env) (s : Sys) :
    (forceUpdate e s).2.c._errorCounter = s.c._errorCounter
    ∨ (forceUpdate e s).2.c._errorCounter = 0
    ∨ (s.c._errorCounter < MAX_DNS_ERRORS
        ∧ (forceUpdate e s).2.c._errorCounter = s.c._errorCounter + 1) := by
  cases hw : e.wifiConnected with
  | false => left; rw [forceUpdate_link_down e s hw]
  | true =>
    by_cases ha : s.c._serverIP.s_addr = 0
    · cases hd : e.hostent with
      | none =>
        by_cases hc : s.c._errorCounter < MAX_DNS_ERRORS
        · exact Or.inr (Or.inr ⟨hc, (forceUpdate_dns_failure_counting e s hw ha hd hc).2.1⟩)
        · exact Or.inl (forceUpdate_dns_failure_saturated e s hw ha hd hc).2.1
      | some a =>
        right; left
        rw [forceUpdate_of_resolved e s a hw ha hd]
        have h := congrArg (fun t => t.2.2.2.2.2.2.2.2.2.1) (sendStages_frame e (resolved a s))
        exact h
    · left
      rw [forceUpdate_of_cached e s hw ha]
      have h := congrArg (fun t => t.2.2.2.2.2.2.2.2.2.1) (sendStages_frame e s)
      exact h

theorem receiveUpdate_errorCounter (e : Env) (s : Sys) :
    (receiveUpdate e s).2.c._errorCounter = s.c._errorCounter := by
  have hc := (receiveNTPPacket_frame s).1
  have h1 : (receiveNTPPacket s).2.c._errorCounter = s.c._errorCounter := by rw [hc]
  unfold receiveUpdate
  simp only [closeSocket, log]
  split
  · exact h1
  · simp only []
    split <;> split <;> exact h1

/-- Every event keeps the counter of failed resolutions within its bounds. -/
theorem step_errorCounter_bounds (s : Sys) (op : Op)
    (h : 0 ≤ s.c._errorCounter ∧ s.c._errorCounter ≤ MAX_DNS_ERRORS) :
    0 ≤ (step s op).2.c._errorCounter ∧ (step s op).2.c._errorCounter ≤ MAX_DNS_ERRORS := by
  have hf : ∀ e, 0 ≤ (forceUpdate e s).2.c._errorCounter
      ∧ (forceUpdate e s).2.c._errorCounter ≤ MAX_DNS_ERRORS := by
    intro e
    have hM : MAX_DNS_ERRORS = 10 := rfl
    rcases forceUpdate_errorCounter e s with h1 | h1 | ⟨h0, h1⟩ <;> rw [h1] <;> omega
  cases op with
  | begin port => exact h
  | end_ =>
    show 0 ≤ (end_ s).c._errorCounter ∧ (end_ s).c._errorCounter ≤ MAX_DNS_ERRORS
    have : (end_ s).c._errorCounter = s.c._errorCounter := by
      unfold end_
      simp only []
      rw [closeSocket_c]
    rw [this]; exact h
  | startUpdate e =>
    show 0 ≤ (startUpdate e s).2.c._errorCounter
      ∧ (startUpdate e s).2.c._errorCounter ≤ MAX_DNS_ERRORS
    unfold startUpdate
    split
    · exact h
    · exact hf e
  | forceUpdate e => exact hf e
  | receiveUpdate e =>
    show 0 ≤ (receiveUpdate e s).2.c._errorCounter
      ∧ (receiveUpdate e s).2.c._errorCounter ≤ MAX_DNS_ERRORS
    rw [receiveUpdate_errorCounter]; exact h
  | setTimeOffset o => exact h
  | setUpdateInterval u r x => exact h
  | setPoolServerName n => exact h
  | arrive d =>
    show 0 ≤ (arrive d s).c._errorCounter ∧ (arrive d s).c._errorCounter ≤ MAX_DNS_ERRORS
    unfold arrive
    split <;> exact h

theorem run_errorCounter_bounds (ops : List Op) (s : Sys)
    (h : 0 ≤ s.c._errorCounter ∧ s.c._errorCounter ≤ MAX_DNS_ERRORS) :
    0 ≤ (run s ops).c._errorCounter ∧ (run s ops).c._errorCounter ≤ MAX_DNS_ERRORS := by
  induction ops generalizing s with
  | nil => exact h
  | cons op ops ih => exact ih _ (step_errorCounter_bounds s op h)

/-- C8: the counter of failed resolutions saturates and is reset only by a
successful resolution.  In every reachable state `0 ≤ dns_error_count ≤
MAX_DNS_ERRORS`; in a state where it equals `MAX_DNS_ERRORS`, every `forceUpdate`
that gets to resolve the name (link connected, no cached address) and fails arms
the timer with `interval_error`, returns `false` and leaves the counter at
`MAX_DNS_ERRORS`; and every `forceUpdate` whose resolution succeeds with address
`a` leaves the counter exactly 0 with `a` stored in the address cache for port 123,
whatever the outcomes of the socket, bind, configuration and send steps are. -/
theorem errorCounter_saturates_and_resets :
    (∀ s : Sys, Reachable s → 0 ≤ s.c._errorCounter ∧ s.c._errorCounter ≤ MAX_DNS_ERRORS)
    ∧ (∀ (e : Env) (s : Sys), e.wifiConnected = true → s.c._serverIP.s_addr = 0 →
        e.hostent = none → s.c._errorCounter = MAX_DNS_ERRORS →
        (forceUpdate e s).1 = false
        ∧ (forceUpdate e s).2.c.timeout = Timeout.arm e.timerNow s.c._errorInterval
        ∧ (forceUpdate e s).2.c.timeout.duration = (forceUpdate e s).2.c._errorInterval
        ∧ (forceUpdate e s).2.c._errorCounter = MAX_DNS_ERRORS)
    ∧ (∀ (e : Env) (s : Sys) (a : Nat), e.wifiConnected = true → s.c._serverIP.s_addr = 0 →
        e.hostent = some a →
        (forceUpdate e s).2.c._errorCounter = 0
        ∧ (forceUpdate e s).2.c._serverIP = ⟨AF_INET, htons 123, a⟩) := by
  refine ⟨?_, ?_, ?_⟩
  · rintro s ⟨name, off, u, r, x, ops, rfl⟩
    exact run_errorCounter_bounds ops _
      ⟨by show (0 : Int) ≤ 0; omega, by show (0 : Int) ≤ 10; omega⟩
  · intro e s hw ha hd hc
    have hn : ¬ s.c._errorCounter < MAX_DNS_ERRORS := by rw [hc]; omega
    have h := forceUpdate_dns_failure_saturated e s hw ha hd hn
    refine ⟨h.1, h.2.2.1, ?_, ?_⟩
    · rw [h.2.2.1, h.2.2.2.2.2.1]; rfl
    · rw [h.2.1, hc]
  · intro e s a hw ha hd
    rw [forceUpdate_of_resolved e s a hw ha hd]
    have h := sendStages_frame e (resolved a s)
    exact ⟨congrArg (fun t => t.2.2.2.2.2.2.2.2.2.1) h, congrArg (fun t => t.2.1) h⟩

/-- Witness for C8: an engine saturated by ten failed resolutions stays saturated
on the next failure, and is reset by a resolution that succeeds even though the
send that follows is refused. -/
theorem errorCounter_saturates_and_resets_witness :
    (Reachable sampleSaturated ∧ sampleSaturated.c._errorCounter = MAX_DNS_ERRORS)
    ∧ (0 ≤ sampleSaturated.c._errorCounter ∧ sampleSaturated.c._errorCounter ≤ MAX_DNS_ERRORS)
    ∧ (forceUpdate sampleEnvNoDns sampleSaturated).2.c._errorCounter = MAX_DNS_ERRORS
    ∧ (forceUpdate sampleEnvNoDns sampleSaturated).2.c.timeout = Timeout.arm 5000 3600000
    ∧ (forceUpdate { sampleEnv with sendtoRet := -1 } sampleSaturated).1 = false
    ∧ (forceUpdate { sampleEnv with sendtoRet := -1 } sampleSaturated).2.c._errorCounter = 0
    ∧ (forceUpdate { sampleEnv with sendtoRet := -1 } sampleSaturated).2.c._serverIP
        = ⟨AF_INET, htons 123, 16909060⟩ :=
  have hr : Reachable sampleSaturated :=
    ⟨"pool.ntp.org", 0, 60000, 10000, 3600000,
      List.replicate 10 (.forceUpdate sampleEnvNoDns), rfl⟩
  ⟨⟨hr, by decide⟩,
   errorCounter_saturates_and_resets.1 sampleSaturated hr,
   (errorCounter_saturates_and_resets.2.1 sampleEnvNoDns sampleSaturated rfl (by decide) rfl
      (by decide)).2.2.2,
   (errorCounter_saturates_and_resets.2.1 sampleEnvNoDns sampleSaturated rfl (by decide) rfl
      (by decide)).2.1,
   by decide,
   (errorCounter_saturates_and_resets.2.2 { sampleEnv with sendtoRet := -1 } sampleSaturated
      16909060 rfl (by decide) rfl).1,
   (errorCounter_saturates_and_resets.2.2 { sampleEnv with sendtoRet := -1 } sampleSaturated
      16909060 rfl (by decide) rfl).2⟩

/-! ## The socket handle and the platform -/

theorem closeSocket_owned (s : Sys) (h : SocketOwned s) :
    (closeSocket s).c._sockfd < 0 ∧ (closeSocket s).p.openSockets = [] := by
  unfold closeSocket
  split
  · rename_i hfd
    rcases h with ⟨h1, _⟩ | ⟨_, h2⟩
    · omega
    · simp [Platform.close, h2]
  · rename_i hfd
    rcases h with ⟨h1, h2⟩ | ⟨h1, _⟩
    · exact ⟨h1, h2⟩
    · omega

theorem log_owned (m : LogMsg) (s : Sys) (h : SocketOwned s) : SocketOwned (log m s) := h

theorem err_owned (op : ErrOp) (s : Sys) (h : SocketOwned s) :
    (err op s).c._sockfd < 0 ∧ (err op s).p.openSockets = [] :=
  closeSocket_owned _ (log_owned _ s h)

theorem receiveNTPPacket_p (s : Sys) :
    (receiveNTPPacket s).2.p = { s.p with rxQueue := (receiveNTPPacket s).2.p.rxQueue } :=
  (receiveNTPPacket_frame s).2

theorem drainLoop_p (n : Nat) (s : Sys) :
    (drainLoop n s).p = { s.p with rxQueue := (drainLoop n s).p.rxQueue } := by
  induction n generalizing s with
  | zero => rfl
  | succ n ih =>
    unfold drainLoop
    simp only []
    split
    · rw [ih, receiveNTPPacket_p]
    · exact receiveNTPPacket_p s

theorem drain_p (s : Sys) : (drain s).p = { s.p with rxQueue := (drain s).p.rxQueue } :=
  drainLoop_p _ s

theorem err_p (op : ErrOp) (s : Sys) :
    (err op s).p.sentLog = s.p.sentLog ∧ (err op s).p.clockSets = s.p.clockSets := by
  unfold err closeSocket log
  split <;> exact ⟨rfl, rfl⟩

/-- What a successful `openSocket` stage leaves behind. -/
theorem openSocket_ok (e : Env) (s s2 : Sys) (h : openSocket e s = .ok s2) :
    0 ≤ s2.c._sockfd ∧ s2.p.sentLog = s.p.sentLog
    ∧ (SocketOwned s → s2.p.openSockets = [s2.c._sockfd]) := by
  unfold openSocket at h
  simp only [] at h
  split at h
  · rename_i hneg
    split at h
    · simp at h
    · rename_i hfd
      split at h
      · simp at h
      · split at h
        · simp at h
        · simp at h
          subst h
          refine ⟨by simpa using hfd, ?_, ?_⟩
          · simp only [Platform.socket]
            split <;> rfl
          · intro ho
            rcases ho with ⟨_, ho⟩ | ⟨h1, _⟩
            · simp only [Platform.socket]
              have : ¬ e.socketRet < 0 := by simpa using hfd
              simp [this, ho]
            · omega
  · rename_i hpos
    simp at h
    subst h
    refine ⟨by omega, rfl, ?_⟩
    intro ho
    rcases ho with ⟨h1, _⟩ | ⟨_, h2⟩
    · omega
    · exact h2

/-- What a failed `openSocket` stage leaves behind. -/
theorem openSocket_error (e : Env) (s s2 : Sys) (h : openSocket e s = .error s2) :
    s2.c._sockfd < 0 ∧ s2.p.sentLog = s.p.sentLog
    ∧ (SocketOwned s → s2.p.openSockets = []) := by
  have hsock : ∀ s1 : Sys, s1.c._sockfd = e.socketRet →
      s1.p.openSockets = (s.p.socket e.socketRet).openSockets →
      s.c._sockfd < 0 → SocketOwned s → SocketOwned s1 := by
    intro s1 hfd hop hneg ho
    rcases ho with ⟨_, ho⟩ | ⟨h1, _⟩
    · unfold SocketOwned
      rw [hfd, hop]
      unfold Platform.socket
      by_cases hr : e.socketRet < 0
      · left; simp [hr, ho]
      · right; simp [hr, ho]; omega
    · omega
  have hlog : (s.p.socket e.socketRet).sentLog = s.p.sentLog := by
    simp only [Platform.socket]
    split <;> rfl
  unfold openSocket at h
  simp only [] at h
  split at h
  · rename_i hneg
    split at h
    · simp at h; subst h
      exact ⟨err_fd _ _, by rw [(err_p _ _).1]; exact hlog,
        fun ho => (err_owned _ _ (hsock _ rfl rfl hneg ho)).2⟩
    · split at h
      · simp at h; subst h
        exact ⟨err_fd _ _, by rw [(err_p _ _).1]; exact hlog,
          fun ho => (err_owned _ _ (hsock _ rfl rfl hneg ho)).2⟩
      · split at h
        · simp at h; subst h
          refine ⟨err_fd _ _, by rw [(err_p _ _).1]; exact hlog, fun ho => ?_⟩
          exact (err_owned _ _ (hsock _ rfl rfl hneg ho)).2
        · simp at h
  · simp at h

/-! ## The drain loop terminates -/

/-- A read that yields a full datagram takes one datagram off the queue. -/
theorem receiveNTPPacket_true_queue (s : Sys) (h : (receiveNTPPacket s).1 = true) :
    (receiveNTPPacket s).2.p.rxQueue.length + 1 = s.p.rxQueue.length := by
  by_cases hfd : s.c._sockfd < 0
  · have : receiveNTPPacket s = (false, s) := by unfold receiveNTPPacket; simp [hfd]
    rw [this] at h
    simp at h
  · cases hq : s.p.rxQueue with
    | nil =>
      have : (receiveNTPPacket s).1 = false := by
        unfold receiveNTPPacket recvfrom
        simp [hfd, hq, toU32, NTP_PACKET_SIZE]
      rw [this] at h
      simp at h
    | cons d rest =>
      have : (receiveNTPPacket s).2.p.rxQueue = rest := by
        unfold receiveNTPPacket recvfrom
        simp [hfd, hq]
      rw [this]
      simp

/-- Once the fuel exceeds the number of queued datagrams, more fuel changes
nothing: the loop has reached its exit. -/
theorem drainLoop_enough_fuel (n : Nat) (s : Sys) (h : s.p.rxQueue.length < n) :
    drainLoop (n + 1) s = drainLoop n s := by
  induction n generalizing s with
  | zero => omega
  | succ n ih =>
    have e1 : drainLoop (n + 1 + 1) s = if (receiveNTPPacket s).1
        then drainLoop (n + 1) (receiveNTPPacket s).2 else (receiveNTPPacket s).2 := rfl
    have e2 : drainLoop (n + 1) s = if (receiveNTPPacket s).1
        then drainLoop n (receiveNTPPacket s).2 else (receiveNTPPacket s).2 := rfl
    rw [e1, e2]
    by_cases hr : (receiveNTPPacket s).1 = true
    · have hq := receiveNTPPacket_true_queue s hr
      simp only [hr, if_true]
      exact ih _ (by omega)
    · simp [hr]

/-- The drain step ends on a read that does not yield a full datagram: running
the loop with any larger bound gives the same state. -/
theorem drain_exits (s : Sys) (k : Nat) :
    drainLoop (s.p.rxQueue.length + 1 + k) s = drain s := by
  induction k with
  | zero => rfl
  | succ k ih =>
    rw [← ih]
    show drainLoop ((s.p.rxQueue.length + 1 + k) + 1) s = _
    exact drainLoop_enough_fuel (s.p.rxQueue.length + 1 + k) s (by omega)

/-! ## Outcomes of the send path -/

theorem buildRequest_bytes (s : Sys) : (buildRequest s).c._packetBuffer = requestBytes := by
  rfl

theorem transmit_sentLog (e : Env) (s : Sys) :
    (transmit e s).2.p.sentLog = s.p.sentLog ++
      [⟨s.c._sockfd, s.c._packetBuffer.take NTP_PACKET_SIZE, s.c._serverIP, e.sendtoRet⟩] := by
  unfold transmit
  simp only []
  split
  · rw [(err_p _ _).1]
  · rfl

theorem transmit_refused (e : Env) (s : Sys) (h : toU32 e.sendtoRet ≠ NTP_PACKET_SIZE) :
    (transmit e s).1 = false ∧ (transmit e s).2.c._sockfd < 0
    ∧ (transmit e s).2.c.timeout = s.c.timeout
    ∧ (SocketOwned s → (transmit e s).2.p.openSockets = []) := by
  unfold transmit
  simp only []
  split
  · exact ⟨rfl, err_fd _ _, err_timeout _ _, fun ho => (err_owned .sendto
      { s with p := { s.p with sentLog := s.p.sentLog ++ [⟨s.c._sockfd,
        s.c._packetBuffer.take NTP_PACKET_SIZE, s.c._serverIP, e.sendtoRet⟩] } } ho).2⟩
  · contradiction

theorem transmit_accepted (e : Env) (s : Sys) (h : toU32 e.sendtoRet = NTP_PACKET_SIZE) :
    (transmit e s).1 = true ∧ (transmit e s).2.c._sockfd = s.c._sockfd
    ∧ (transmit e s).2.c.timeout = Timeout.arm e.timerNow s.c._retryInterval
    ∧ (transmit e s).2.p.openSockets = s.p.openSockets := by
  unfold transmit
  simp only []
  split
  · contradiction
  · exact ⟨rfl, rfl, rfl, rfl⟩

/-- The outcome of the stages after name resolution: either `false` with no
transport left open, or `true` with the request handed to `sendto` in full, the
timer armed with the retry interval and the transport open. -/
theorem sendStages_outcome (e : Env) (s1 : Sys) :
    ((sendStages e s1).1 = false ∧ (sendStages e s1).2.c._sockfd < 0
      ∧ ((sendStages e s1).2.p.sentLog = s1.p.sentLog
          ∨ (toU32 e.sendtoRet ≠ NTP_PACKET_SIZE ∧ ∃ fd : Int,
              (sendStages e s1).2.p.sentLog
                = s1.p.sentLog ++ [⟨fd, requestBytes, s1.c._serverIP, e.sendtoRet⟩]))
      ∧ (SocketOwned s1 → (sendStages e s1).2.p.openSockets = []))
    ∨ ((sendStages e s1).1 = true ∧ toU32 e.sendtoRet = NTP_PACKET_SIZE
      ∧ 0 ≤ (sendStages e s1).2.c._sockfd
      ∧ (sendStages e s1).2.p.sentLog = s1.p.sentLog ++
          [⟨(sendStages e s1).2.c._sockfd, requestBytes, s1.c._serverIP, e.sendtoRet⟩]
      ∧ (sendStages e s1).2.c.timeout = Timeout.arm e.timerNow s1.c._retryInterval
      ∧ (SocketOwned s1 → (sendStages e s1).2.p.openSockets = [(sendStages e s1).2.c._sockfd])) := by
  unfold sendStages
  cases h : openSocket e s1 with
  | error s2 =>
    have he := openSocket_error e s1 s2 h
    exact Or.inl ⟨rfl, he.1, Or.inl he.2.1, he.2.2⟩
  | ok s2 =>
    have ho := openSocket_ok e s1 s2 h
    have hc2 := openSocket_c e s1 s2 (Or.inl h)
    have hfd : (buildRequest (drain s2)).c._sockfd = s2.c._sockfd := by
      rw [buildRequest_c, drain_c]
    have hip : (buildRequest (drain s2)).c._serverIP = s1.c._serverIP := by
      rw [buildRequest_c, drain_c, hc2]
    have hri : (buildRequest (drain s2)).c._retryInterval = s1.c._retryInterval := by
      rw [buildRequest_c, drain_c, hc2]
    have hsl : (buildRequest (drain s2)).p.sentLog = s1.p.sentLog := by
      show (drain s2).p.sentLog = _
      rw [drain_p]
      exact ho.2.1
    have hos : (buildRequest (drain s2)).p.openSockets = s2.p.openSockets := by
      show (drain s2).p.openSockets = _
      rw [drain_p]
    have hbuf : (buildRequest (drain s2)).c._packetBuffer.take NTP_PACKET_SIZE = requestBytes := by
      rw [buildRequest_bytes]
      decide
    have hlog := transmit_sentLog e (buildRequest (drain s2))
    rw [hbuf, hfd, hip, hsl] at hlog
    show ((transmit e (buildRequest (drain s2))).1 = false ∧ _) ∨
      ((transmit e (buildRequest (drain s2))).1 = true ∧ _)
    by_cases hr : toU32 e.sendtoRet = NTP_PACKET_SIZE
    · have ht := transmit_accepted e (buildRequest (drain s2)) hr
      right
      refine ⟨ht.1, hr, ?_, ?_, ?_, ?_⟩
      · rw [ht.2.1, hfd]; exact ho.1
      · rw [ht.2.1, hfd]; exact hlog
      · rw [ht.2.2.1, hri]
      · intro hown
        rw [ht.2.2.2, hos, ht.2.1, hfd]
        exact ho.2.2 hown
    · have ht := transmit_refused e (buildRequest (drain s2)) hr
      left
      refine ⟨ht.1, ht.2.1, Or.inr ⟨hr, _, hlog⟩, ?_⟩
      intro hown
      apply ht.2.2.2
      right
      rw [hfd, hos]
      exact ⟨ho.1, ho.2.2 hown⟩

theorem forceUpdate_cached_eq (e : Env) (s : Sys) (hw : e.wifiConnected = true)
    (ha : s.c._serverIP.s_addr ≠ 0) : forceUpdate e s = sendStages e s :=
  forceUpdate_of_cached e s hw ha

theorem forceUpdate_resolved_eq (e : Env) (s : Sys) (a : Nat) (hw : e.wifiConnected = true)
    (ha : s.c._serverIP.s_addr = 0) (hd : e.hostent = some a) :
    forceUpdate e s = sendStages e (resolved a s) :=
  forceUpdate_of_resolved e s a hw ha hd

theorem sendStages_sendFrame (e : Env) (s1 : Sys) :
    sendFrame (sendStages e s1).2.c = sendFrame s1.c :=
  sendStages_frame e s1

/-! ## Invariants of runs -/

theorem receiveUpdate_receiveFrame (e : Env) (s : Sys) :
    receiveFrame (receiveUpdate e s).2.c = receiveFrame s.c := by
  have hc := (receiveNTPPacket_frame s).1
  have h1 : receiveFrame (receiveNTPPacket s).2.c = receiveFrame s.c := by rw [hc]; rfl
  unfold receiveUpdate
  simp only [closeSocket, log]
  split
  · exact h1
  · simp only []
    split <;> split <;> exact h1

theorem forceUpdate_serverIP (e : Env) (s : Sys) :
    (forceUpdate e s).2.c._serverIP = s.c._serverIP
    ∨ (s.c._serverIP.s_addr = 0 ∧ ∃ a, e.hostent = some a
        ∧ (forceUpdate e s).2.c._serverIP = ⟨AF_INET, htons 123, a⟩) := by
  cases hw : e.wifiConnected with
  | false => left; rw [forceUpdate_link_down e s hw]
  | true =>
    by_cases ha : s.c._serverIP.s_addr = 0
    · cases hd : e.hostent with
      | none =>
        left
        by_cases hc : s.c._errorCounter < MAX_DNS_ERRORS
        · exact (forceUpdate_dns_failure_counting e s hw ha hd hc).2.2.2.1
        · exact (forceUpdate_dns_failure_saturated e s hw ha hd hc).2.2.2.1
      | some a =>
        right
        refine ⟨ha, a, rfl, ?_⟩
        rw [forceUpdate_resolved_eq e s a hw ha hd]
        exact congrArg (fun t => t.2.1) (sendStages_sendFrame e (resolved a s))
    · left
      rw [forceUpdate_cached_eq e s hw ha]
      exact congrArg (fun t => t.2.1) (sendStages_sendFrame e s)

theorem forceUpdate_owned (e : Env) (s : Sys) (ho : SocketOwned s) :
    SocketOwned (forceUpdate e s).2 := by
  have hst : ∀ s1 : Sys, SocketOwned s1 → SocketOwned (sendStages e s1).2 := by
    intro s1 h1
    rcases sendStages_outcome e s1 with h | h
    · exact Or.inl ⟨h.2.1, h.2.2.2 h1⟩
    · exact Or.inr ⟨h.2.2.1, h.2.2.2.2.2 h1⟩
  cases hw : e.wifiConnected with
  | false => rw [forceUpdate_link_down e s hw]; exact ho
  | true =>
    by_cases ha : s.c._serverIP.s_addr = 0
    · cases hd : e.hostent with
      | none =>
        rw [forceUpdate_dns_failure e s hw ha hd]
        apply Or.inl
        apply err_owned
        split <;> exact ho
      | some a =>
        rw [forceUpdate_resolved_eq e s a hw ha hd]
        exact hst _ ho
    · rw [forceUpdate_cached_eq e s hw ha]
      exact hst _ ho

theorem receiveUpdate_owned (e : Env) (s : Sys) (ho : SocketOwned s) :
    SocketOwned (receiveUpdate e s).2 := by
  by_cases h : (receiveNTPPacket s).1 = true
  · have hr := receiveUpdate_of_read e s h
    have hfd := receiveNTPPacket_true_fd s h
    left
    refine ⟨by rw [hr.2.1]; omega, ?_⟩
    rw [hr.2.2.2.2.2.1]
    rcases ho with ⟨h1, _⟩ | ⟨_, h2⟩
    · omega
    · rw [h2]; simp
  · have hf : (receiveNTPPacket s).1 = false := by simpa using h
    rw [receiveUpdate_of_no_read e s hf]
    obtain ⟨hc, hp⟩ := receiveNTPPacket_frame s
    unfold SocketOwned
    rw [hc, hp]
    exact ho

theorem step_owned (s : Sys) (op : Op) (ho : SocketOwned s) : SocketOwned (step s op).2 := by
  cases op with
  | begin port => exact ho
  | end_ => exact Or.inl (closeSocket_owned s ho)
  | startUpdate e =>
    show SocketOwned (startUpdate e s).2
    unfold startUpdate
    split
    · exact ho
    · exact forceUpdate_owned e s ho
  | forceUpdate e => exact forceUpdate_owned e s ho
  | receiveUpdate e => exact receiveUpdate_owned e s ho
  | setTimeOffset o => exact ho
  | setUpdateInterval u r x => exact ho
  | setPoolServerName n => exact ho
  | arrive d =>
    show SocketOwned (arrive d s)
    unfold arrive
    split <;> exact ho

theorem step_address (s : Sys) (op : Op) (ha : AddressForNtp s) :
    AddressForNtp (step s op).2 := by
  have hf : ∀ e, AddressForNtp (forceUpdate e s).2 := by
    intro e
    unfold AddressForNtp
    rcases forceUpdate_serverIP e s with h | ⟨_, a, _, h⟩
    · rw [h]; exact ha
    · rw [h]; intro _; exact ⟨rfl, rfl⟩
  cases op with
  | begin port => exact ha
  | end_ => intro h; exact absurd rfl h
  | startUpdate e =>
    show AddressForNtp (startUpdate e s).2
    unfold startUpdate
    split
    · exact ha
    · exact hf e
  | forceUpdate e => exact hf e
  | receiveUpdate e =>
    show AddressForNtp (receiveUpdate e s).2
    unfold AddressForNtp
    have h := congrArg (fun t => t.2.1) (receiveUpdate_receiveFrame e s)
    simp only [receiveFrame] at h
    rw [h]
    exact ha
  | setTimeOffset o => exact ha
  | setUpdateInterval u r x => exact ha
  | setPoolServerName n => intro h; exact absurd rfl h
  | arrive d =>
    show AddressForNtp (arrive d s)
    unfold arrive
    split <;> exact ha

/-- In every reachable state the engine's handle is the only open one, if any, and
a cached server address is on port 123. -/
theorem reachable_invariants (s : Sys) (h : Reachable s) : SocketOwned s ∧ AddressForNtp s := by
  obtain ⟨name, off, u, r, x, ops, rfl⟩ := h
  have key : ∀ (ops : List Op) (s0 : Sys), SocketOwned s0 ∧ AddressForNtp s0 →
      SocketOwned (run s0 ops) ∧ AddressForNtp (run s0 ops) := by
    intro ops
    induction ops with
    | nil => intro s0 h0; exact h0
    | cons op ops ih =>
      intro s0 h0
      exact ih _ ⟨step_owned s0 op h0.1, step_address s0 op h0.2⟩
  apply key
  refine ⟨Or.inl ⟨by show (-1 : Int) < 0; omega, rfl⟩, ?_⟩
  intro h0
  exact absurd rfl h0

/-- The outcome of `forceUpdate`: either it returns `false`, having called `sendto`
not at all or with a result other than 48, or it returns `true`, having handed the
request to `sendto` once with result 48 for the address held in `_serverIP`. -/
theorem forceUpdate_outcome (e : Env) (s : Sys) :
    ((forceUpdate e s).1 = false
      ∧ ((forceUpdate e s).2.p.sentLog = s.p.sentLog
          ∨ (toU32 e.sendtoRet ≠ NTP_PACKET_SIZE ∧ ∃ (fd : Int) (dest : SockAddrIn),
              (forceUpdate e s).2.p.sentLog
                = s.p.sentLog ++ [⟨fd, requestBytes, dest, e.sendtoRet⟩])))
    ∨ ((forceUpdate e s).1 = true ∧ toU32 e.sendtoRet = NTP_PACKET_SIZE
      ∧ 0 ≤ (forceUpdate e s).2.c._sockfd
      ∧ (forceUpdate e s).2.p.sentLog = s.p.sentLog ++
          [⟨(forceUpdate e s).2.c._sockfd, requestBytes, (forceUpdate e s).2.c._serverIP,
            e.sendtoRet⟩]
      ∧ (forceUpdate e s).2.c.timeout = Timeout.arm e.timerNow s.c._retryInterval
      ∧ (forceUpdate e s).2.c._retryInterval = s.c._retryInterval
      ∧ (SocketOwned s → (forceUpdate e s).2.p.openSockets = [(forceUpdate e s).2.c._sockfd])
      ∧ (AddressForNtp s → (forceUpdate e s).2.c._serverIP.sin_port = htons 123
          ∧ (forceUpdate e s).2.c._serverIP.sin_family = AF_INET)) := by
  have hst : ∀ s1 : Sys, s1.p.sentLog = s.p.sentLog → s1.c._retryInterval = s.c._retryInterval →
      (SocketOwned s → SocketOwned s1) →
      (AddressForNtp s → s1.c._serverIP.sin_port = htons 123
          ∧ s1.c._serverIP.sin_family = AF_INET) →
      forceUpdate e s = sendStages e s1 →
      ((forceUpdate e s).1 = false
        ∧ ((forceUpdate e s).2.p.sentLog = s.p.sentLog
            ∨ (toU32 e.sendtoRet ≠ NTP_PACKET_SIZE ∧ ∃ (fd : Int) (dest : SockAddrIn),
                (forceUpdate e s).2.p.sentLog
                  = s.p.sentLog ++ [⟨fd, requestBytes, dest, e.sendtoRet⟩])))
      ∨ ((forceUpdate e s).1 = true ∧ toU32 e.sendtoRet = NTP_PACKET_SIZE
        ∧ 0 ≤ (forceUpdate e s).2.c._sockfd
        ∧ (forceUpdate e s).2.p.sentLog = s.p.sentLog ++
            [⟨(forceUpdate e s).2.c._sockfd, requestBytes, (forceUpdate e s).2.c._serverIP,
              e.sendtoRet⟩]
        ∧ (forceUpdate e s).2.c.timeout = Timeout.arm e.timerNow s.c._retryInterval
        ∧ (forceUpdate e s).2.c._retryInterval = s.c._retryInterval
        ∧ (SocketOwned s → (forceUpdate e s).2.p.openSockets = [(forceUpdate e s).2.c._sockfd])
        ∧ (AddressForNtp s → (forceUpdate e s).2.c._serverIP.sin_port = htons 123
            ∧ (forceUpdate e s).2.c._serverIP.sin_family = AF_INET)) := by
    intro s1 hlog hri hown haddr heq
    have hfr := sendStages_sendFrame e s1
    have hip : (sendStages e s1).2.c._serverIP = s1.c._serverIP :=
      congrArg (fun t => t.2.1) hfr
    have hri2 : (sendStages e s1).2.c._retryInterval = s1.c._retryInterval :=
      congrArg (fun t => t.2.2.2.2.2.1) hfr
    rw [heq]
    rcases sendStages_outcome e s1 with h | h
    · left
      refine ⟨h.1, ?_⟩
      rcases h.2.2.1 with h2 | ⟨h2, fd, h3⟩
      · left; rw [h2, hlog]
      · right; exact ⟨h2, fd, s1.c._serverIP, by rw [h3, hlog]⟩
    · right
      refine ⟨h.1, h.2.1, h.2.2.1, ?_, ?_, ?_, ?_, ?_⟩
      · rw [h.2.2.2.1, hlog, hip]
      · rw [h.2.2.2.2.1, hri]
      · rw [hri2, hri]
      · intro ho; exact h.2.2.2.2.2 (hown ho)
      · intro ha; rw [hip]; exact haddr ha
  cases hw : e.wifiConnected with
  | false =>
    left
    rw [forceUpdate_link_down e s hw]
    exact ⟨rfl, Or.inl rfl⟩
  | true =>
    by_cases ha : s.c._serverIP.s_addr = 0
    · cases hd : e.hostent with
      | none =>
        left
        by_cases hc : s.c._errorCounter < MAX_DNS_ERRORS
        · have h := forceUpdate_dns_failure_counting e s hw ha hd hc
          exact ⟨h.1, Or.inl h.2.2.2.2.2.2⟩
        · have h := forceUpdate_dns_failure_saturated e s hw ha hd hc
          exact ⟨h.1, Or.inl h.2.2.2.2.2.2⟩
      | some a =>
        exact hst (resolved a s) rfl rfl (fun ho => ho) (fun _ => ⟨rfl, rfl⟩)
          (forceUpdate_resolved_eq e s a hw ha hd)
    · exact hst s rfl rfl (fun ho => ho) (fun h => h ha) (forceUpdate_cached_eq e s hw ha)

/-- A `sendto` result within the range of `int` converts to 48 only if it is 48. -/
theorem toU32_eq_packet_size (r : Int) (h : -2147483648 ≤ r ∧ r < 2147483648) :
    toU32 r = NTP_PACKET_SIZE ↔ r = 48 := by
  unfold toU32 NTP_PACKET_SIZE
  omega

/-- C9: on a reachable engine, with `sendto` returning an `int`, `forceUpdate`
returns `true` if and only if this call handed exactly one datagram to `sendto`
and the transport reported exactly 48 bytes accepted; that datagram has 48 bytes
and is addressed to the server address held in `_serverIP`, an IPv4 address on UDP
port 123.  When it returns `true` the retry timer has been armed with
`interval_retry`, and the transport is left open: `_sockfd` is a valid handle and
the only open one. -/
theorem forceUpdate_true_iff_request_sent (e : Env) (s : Sys) (hs : Reachable s)
    (hret : -2147483648 ≤ e.sendtoRet ∧ e.sendtoRet < 2147483648) :
    ((forceUpdate e s).1 = true ↔
      ∃ rec : SendRecord, (forceUpdate e s).2.p.sentLog = s.p.sentLog ++ [rec]
        ∧ rec.ret = 48 ∧ rec.payload.length = 48
        ∧ rec.dest = (forceUpdate e s).2.c._serverIP
        ∧ rec.dest.sin_port = htons 123 ∧ rec.dest.sin_family = AF_INET)
    ∧ ((forceUpdate e s).1 = true →
        (forceUpdate e s).2.c.timeout = Timeout.arm e.timerNow s.c._retryInterval
        ∧ (forceUpdate e s).2.c.timeout.duration = (forceUpdate e s).2.c._retryInterval
        ∧ 0 ≤ (forceUpdate e s).2.c._sockfd
        ∧ (forceUpdate e s).2.p.openSockets = [(forceUpdate e s).2.c._sockfd]) := by
  obtain ⟨hown, haddr⟩ := reachable_invariants s hs
  have h48 := toU32_eq_packet_size e.sendtoRet hret
  rcases forceUpdate_outcome e s with h | h
  · have hfalse : ¬ (forceUpdate e s).1 = true := by rw [h.1]; simp
    refine ⟨⟨fun ht => absurd ht hfalse, ?_⟩, fun ht => absurd ht hfalse⟩
    rintro ⟨rec, hrec, hr48, -⟩
    exfalso
    rcases h.2 with h2 | ⟨h2, fd, dest, h3⟩
    · rw [h2] at hrec
      have := congrArg List.length hrec
      simp at this
    · rw [h3] at hrec
      have hinj := List.append_cancel_left hrec
      simp only [List.cons.injEq, and_true] at hinj
      have : e.sendtoRet = 48 := by rw [← hr48, ← hinj]
      exact h2 (h48.mpr this)
  · refine ⟨⟨fun _ => ⟨_, h.2.2.2.1, h48.mp h.2.1, rfl, rfl, (h.2.2.2.2.2.2.2 haddr).1,
      (h.2.2.2.2.2.2.2 haddr).2⟩, fun _ => h.1⟩, fun _ => ⟨h.2.2.2.2.1, ?_, h.2.2.1,
      h.2.2.2.2.2.2.1 hown⟩⟩
    rw [h.2.2.2.2.1, h.2.2.2.2.2.1]
    rfl

/-- Witness for C9: the first `forceUpdate` of a fresh engine with every platform
call succeeding. -/
theorem forceUpdate_true_iff_request_sent_witness :
    (Reachable sampleFresh ∧ -2147483648 ≤ sampleEnv.sendtoRet
      ∧ sampleEnv.sendtoRet < 2147483648)
    ∧ (forceUpdate sampleEnv sampleFresh).1 = true
    ∧ (forceUpdate sampleEnv sampleFresh).2.c.timeout = Timeout.arm 5000 10000
    ∧ (forceUpdate sampleEnv sampleFresh).2.p.openSockets = [3]
    ∧ (forceUpdate sampleEnv sampleFresh).2.p.sentLog
        = [⟨3, requestBytes, ⟨AF_INET, htons 123, 16909060⟩, 48⟩] :=
  have hr : Reachable sampleFresh := ⟨"pool.ntp.org", 0, 60000, 10000, 3600000, [], rfl⟩
  ⟨⟨hr, by decide, by decide⟩, by decide,
   ((forceUpdate_true_iff_request_sent sampleEnv sampleFresh hr ⟨by decide, by decide⟩).2
      (by decide)).1,
   by decide, by decide⟩

/-- C10: for every engine state, whatever the packet buffer held before, a
`forceUpdate` either does not call `sendto` at all (and returns `false`) or hands
it, once, the fixed sequence `requestBytes`; a `forceUpdate` that returns `true`
has handed over exactly that sequence.  The sequence has 48 bytes: byte 0 is 0xE3
(binary 11100011), byte 1 is 0, byte 2 is 6, byte 3 is 0xEC, bytes 4..11 are 0,
bytes 12..15 are 49, 0x4E, 49, 52 and bytes 16..47 are 0. -/
theorem forceUpdate_sends_fixed_request (e : Env) (s : Sys) :
    (((forceUpdate e s).1 = false ∧ (forceUpdate e s).2.p.sentLog = s.p.sentLog)
      ∨ ∃ (fd : Int) (dest : SockAddrIn),
          (forceUpdate e s).2.p.sentLog
            = s.p.sentLog ++ [⟨fd, requestBytes, dest, e.sendtoRet⟩])
    ∧ ((forceUpdate e s).1 = true → ∃ (fd : Int) (dest : SockAddrIn),
          (forceUpdate e s).2.p.sentLog
            = s.p.sentLog ++ [⟨fd, requestBytes, dest, e.sendtoRet⟩])
    ∧ (∀ buf : List Nat,
        (forceUpdate e { s with c := { s.c with _packetBuffer := buf } }).1 = true →
        ∃ (fd : Int) (dest : SockAddrIn),
          (forceUpdate e { s with c := { s.c with _packetBuffer := buf } }).2.p.sentLog
            = s.p.sentLog ++ [⟨fd, requestBytes, dest, e.sendtoRet⟩])
    ∧ requestBytes.length = 48
    ∧ requestBytes = [0b11100011, 0, 6, 0xEC] ++ List.replicate 8 0 ++ [49, 0x4E, 49, 52]
        ++ List.replicate 32 0 := by
  refine ⟨?_, ?_, ?_, by decide, by decide⟩
  · rcases forceUpdate_outcome e s with h | h
    · rcases h.2 with h2 | ⟨_, fd, dest, h3⟩
      · exact Or.inl ⟨h.1, h2⟩
      · exact Or.inr ⟨fd, dest, h3⟩
    · exact Or.inr ⟨_, _, h.2.2.2.1⟩
  · intro ht
    rcases forceUpdate_outcome e s with h | h
    · rw [h.1] at ht; exact absurd ht (by simp)
    · exact ⟨_, _, h.2.2.2.1⟩
  · intro buf ht
    rcases forceUpdate_outcome e { s with c := { s.c with _packetBuffer := buf } } with h | h
    · rw [h.1] at ht; exact absurd ht (by simp)
    · exact ⟨_, _, h.2.2.2.1⟩

/-- Witness for C10: a request sent on a socket that still has a stale 48-byte
reply queued, which the drain step reads into the packet buffer first. -/
theorem forceUpdate_sends_fixed_request_witness :
    sampleAwaiting.p.rxQueue = [sampleReply]
    ∧ (forceUpdate sampleEnv sampleAwaiting).1 = true
    ∧ ∃ (fd : Int) (dest : SockAddrIn),
        (forceUpdate sampleEnv sampleAwaiting).2.p.sentLog
          = sampleAwaiting.p.sentLog ++ [⟨fd, requestBytes, dest, sampleEnv.sendtoRet⟩] :=
  ⟨rfl, by decide, (forceUpdate_sends_fixed_request sampleEnv sampleAwaiting).2.1 (by decide)⟩

/-- C11, as stated, fails: byte 0 of the request built by `forceUpdate` is
`0b11100011`; its top two bits are `11` and the next three are `100`, so the
leap indicator is 3 and the version number is 4, not 0 and 3.  The request sent by
a fresh engine shows it. -/
theorem request_byte0_is_not_li0_vn3 :
    (buildRequest sampleFresh).c._packetBuffer.getD 0 0 = 0b11100011
    ∧ (forceUpdate sampleEnv sampleFresh).1 = true
    ∧ ((forceUpdate sampleEnv sampleFresh).2.p.sentLog.map
        (fun r => (leapIndicator (r.payload.getD 0 0), versionNumber (r.payload.getD 0 0),
          ntpMode (r.payload.getD 0 0)))) = [(3, 4, 3)]
    ∧ ¬ (leapIndicator ((buildRequest sampleFresh).c._packetBuffer.getD 0 0) = 0
        ∧ versionNumber ((buildRequest sampleFresh).c._packetBuffer.getD 0 0) = 3
        ∧ ntpMode ((buildRequest sampleFresh).c._packetBuffer.getD 0 0) = 3) := by
  refine ⟨?_, ?_, ?_, ?_⟩ <;> decide

/-- C11, amended: decoded with the NTP header layout (leap indicator = the top 2
bits, version number = the next 3 bits, mode = the low 3 bits), byte 0 of the
request built by `forceUpdate`, in every state, yields leap indicator 3 (clock not
synchronised), version 4 and mode 3 (client); and this is byte 0 of every datagram
`forceUpdate` hands to `sendto`. -/
theorem request_byte0_decodes_li3_vn4_mode3 (e : Env) (s : Sys) :
    (buildRequest s).c._packetBuffer.getD 0 0 = 0xE3
    ∧ leapIndicator ((buildRequest s).c._packetBuffer.getD 0 0) = 3
    ∧ versionNumber ((buildRequest s).c._packetBuffer.getD 0 0) = 4
    ∧ ntpMode ((buildRequest s).c._packetBuffer.getD 0 0) = 3
    ∧ (∀ rec : SendRecord, (forceUpdate e s).2.p.sentLog = s.p.sentLog ++ [rec] →
        leapIndicator (rec.payload.getD 0 0) = 3 ∧ versionNumber (rec.payload.getD 0 0) = 4
        ∧ ntpMode (rec.payload.getD 0 0) = 3) := by
  rw [buildRequest_bytes]
  refine ⟨by decide, by decide, by decide, by decide, ?_⟩
  intro rec hrec
  have hpay : rec.payload = requestBytes := by
    rcases forceUpdate_outcome e s with h | h
    · rcases h.2 with h2 | ⟨_, fd, dest, h3⟩
      · rw [h2] at hrec
        have := congrArg List.length hrec
        simp at this
      · rw [h3] at hrec
        have hinj := List.append_cancel_left hrec
        simp only [List.cons.injEq, and_true] at hinj
        rw [← hinj]
    · rw [h.2.2.2.1] at hrec
      have hinj := List.append_cancel_left hrec
      simp only [List.cons.injEq, and_true] at hinj
      rw [← hinj]
  rw [hpay]
  exact ⟨by decide, by decide, by decide⟩

/-- Witness for C11 (amended): the request sent by the first `forceUpdate` of a
fresh engine. -/
theorem request_byte0_decodes_li3_vn4_mode3_witness :
    (forceUpdate sampleEnv sampleFresh).2.p.sentLog
      = sampleFresh.p.sentLog ++ [⟨3, requestBytes, ⟨AF_INET, htons 123, 16909060⟩, 48⟩]
    ∧ leapIndicator (requestBytes.getD 0 0) = 3 ∧ versionNumber (requestBytes.getD 0 0) = 4
    ∧ ntpMode (requestBytes.getD 0 0) = 3 :=
  ⟨by decide,
   (request_byte0_decodes_li3_vn4_mode3 sampleEnv sampleFresh).2.2.2.2
     ⟨3, requestBytes, ⟨AF_INET, htons 123, 16909060⟩, 48⟩ (by decide)⟩

/-- C12: the guards are pure no-ops.  While the retry timer has not expired
`startUpdate` returns `false` and leaves the engine and the platform exactly as
they were (no field changes, no resolution, socket or send call is made); with the
link not connected `forceUpdate` does the same, and so does `startUpdate` whatever
the timer says; and with an expired timer `startUpdate` returns what `forceUpdate`
returns and produces the same state. -/
theorem guards_are_no_ops (e : Env) (s : Sys) :
    (s.c.timeout.expired e.timerNow = false → startUpdate e s = (false, s))
    ∧ (e.wifiConnected = false → forceUpdate e s = (false, s))
    ∧ (e.wifiConnected = false → startUpdate e s = (false, s))
    ∧ (s.c.timeout.expired e.timerNow = true → startUpdate e s = forceUpdate e s) := by
  refine ⟨?_, forceUpdate_link_down e s, ?_, ?_⟩
  · intro h
    unfold startUpdate
    simp [h]
  · intro h
    unfold startUpdate
    split
    · rfl
    · exact forceUpdate_link_down e s h
  · intro h
    unfold startUpdate
    simp [h]

/-- Witness for C12: an engine whose timer was armed with 10000 ms at tick 5000 is
asked to update at tick 5000, and a fresh engine is asked while the link is down. -/
theorem guards_are_no_ops_witness :
    (sampleAwaiting.c.timeout.expired sampleEnv.timerNow = false
      ∧ startUpdate sampleEnv sampleAwaiting = (false, sampleAwaiting))
    ∧ (({ sampleEnv with wifiConnected := false } : Env).wifiConnected = false
      ∧ forceUpdate { sampleEnv with wifiConnected := false } sampleFresh = (false, sampleFresh))
    ∧ (sampleFresh.c.timeout.expired sampleEnv.timerNow = true
      ∧ startUpdate sampleEnv sampleFresh = forceUpdate sampleEnv sampleFresh) :=
  ⟨⟨by decide, (guards_are_no_ops sampleEnv sampleAwaiting).1 (by decide)⟩,
   ⟨rfl, (guards_are_no_ops { sampleEnv with wifiConnected := false } sampleFresh).2.1 rfl⟩,
   ⟨by decide, (guards_are_no_ops sampleEnv sampleFresh).2.2.2 (by decide)⟩⟩

/-! ## Handles are neither replaced nor leaked -/

theorem openSocket_of_open (e : Env) (s : Sys) (hfd : 0 ≤ s.c._sockfd) :
    openSocket e s = .ok s := by
  unfold openSocket
  simp [not_lt.mpr hfd]

theorem sendStages_fd_kept (e : Env) (s1 : Sys) (hfd : 0 ≤ s1.c._sockfd) :
    (sendStages e s1).2.c._sockfd = s1.c._sockfd ∨ (sendStages e s1).2.c._sockfd < 0 := by
  unfold sendStages
  rw [openSocket_of_open e s1 hfd]
  show (transmit e (buildRequest (drain s1))).2.c._sockfd = _ ∨ _
  have hk : (buildRequest (drain s1)).c._sockfd = s1.c._sockfd := by
    rw [buildRequest_c, drain_c]
  by_cases hr : toU32 e.sendtoRet = NTP_PACKET_SIZE
  · left
    rw [(transmit_accepted e _ hr).2.1, hk]
  · right
    exact (transmit_refused e _ hr).2.1

theorem forceUpdate_fd_kept (e : Env) (s : Sys) (hfd : 0 ≤ s.c._sockfd) :
    (forceUpdate e s).2.c._sockfd = s.c._sockfd ∨ (forceUpdate e s).2.c._sockfd < 0 := by
  cases hw : e.wifiConnected with
  | false => left; rw [forceUpdate_link_down e s hw]
  | true =>
    by_cases ha : s.c._serverIP.s_addr = 0
    · cases hd : e.hostent with
      | none =>
        right
        rw [forceUpdate_dns_failure e s hw ha hd]
        exact err_fd _ _
      | some a =>
        rw [forceUpdate_resolved_eq e s a hw ha hd]
        exact sendStages_fd_kept e (resolved a s) hfd
    · rw [forceUpdate_cached_eq e s hw ha]
      exact sendStages_fd_kept e s hfd

theorem receiveUpdate_fd_kept (e : Env) (s : Sys) :
    (receiveUpdate e s).2.c._sockfd = s.c._sockfd ∨ (receiveUpdate e s).2.c._sockfd < 0 := by
  by_cases h : (receiveNTPPacket s).1 = true
  · right
    rw [(receiveUpdate_of_read e s h).2.1]
    omega
  · left
    have hf : (receiveNTPPacket s).1 = false := by simpa using h
    rw [receiveUpdate_of_no_read e s hf, (receiveNTPPacket_frame s).1]

/-- No event replaces an open handle by another one. -/
theorem step_fd_kept (s : Sys) (op : Op) (hfd : 0 ≤ s.c._sockfd) :
    (step s op).2.c._sockfd = s.c._sockfd ∨ (step s op).2.c._sockfd < 0 := by
  cases op with
  | begin port => exact Or.inl rfl
  | end_ =>
    right
    show (closeSocket s).c._sockfd < 0
    exact closeSocket_fd s
  | startUpdate e =>
    show (startUpdate e s).2.c._sockfd = _ ∨ (startUpdate e s).2.c._sockfd < 0
    unfold startUpdate
    split
    · exact Or.inl rfl
    · exact forceUpdate_fd_kept e s hfd
  | forceUpdate e => exact forceUpdate_fd_kept e s hfd
  | receiveUpdate e => exact receiveUpdate_fd_kept e s
  | setTimeOffset o => exact Or.inl rfl
  | setUpdateInterval u r x => exact Or.inl rfl
  | setPoolServerName n => exact Or.inl rfl
  | arrive d =>
    left
    show (arrive d s).c._sockfd = _
    unfold arrive
    split <;> rfl

/-- C13: at most one transport handle is open at any instant.  With the platform
modelled as the list of handles created and not yet closed, in every state
reachable from a fresh engine by `begin`, `end`, `startUpdate`, `forceUpdate`,
`receiveUpdate`, the setters and arrivals of datagrams, under arbitrary outcomes of
the platform calls, that list is empty when `_sockfd < 0` and is exactly
`[_sockfd]` otherwise.  Every event leaves the list unchanged, or starts from the
empty list (a handle is created only while none is open), or ends with the empty
list (the handle was closed); so none is dropped without being closed. -/
theorem at_most_one_transport_open (s : Sys) (h : Reachable s) :
    (s.c._sockfd < 0 → s.p.openSockets = [])
    ∧ (0 ≤ s.c._sockfd → s.p.openSockets = [s.c._sockfd])
    ∧ s.p.openSockets.length ≤ 1
    ∧ (∀ op : Op, (step s op).2.p.openSockets = s.p.openSockets
        ∨ s.p.openSockets = [] ∨ (step s op).2.p.openSockets = []) := by
  have ho := (reachable_invariants s h).1
  refine ⟨?_, ?_, ?_, ?_⟩
  · intro hneg
    rcases ho with ⟨_, h2⟩ | ⟨h1, _⟩
    · exact h2
    · omega
  · intro hpos
    rcases ho with ⟨h1, _⟩ | ⟨_, h2⟩
    · omega
    · exact h2
  · rcases ho with ⟨_, h2⟩ | ⟨_, h2⟩ <;> rw [h2] <;> simp
  · intro op
    have ho2 := step_owned s op ho
    rcases ho with ⟨_, h2⟩ | ⟨h1, h2⟩
    · exact Or.inr (Or.inl h2)
    · rcases ho2 with ⟨_, g2⟩ | ⟨g1, g2⟩
      · exact Or.inr (Or.inr g2)
      · left
        rcases step_fd_kept s op h1 with hk | hk
        · rw [g2, h2, hk]
        · omega

/-- Witness for C13: the engine that has just sent its first request holds handle
3, the only open one. -/
theorem at_most_one_transport_open_witness :
    Reachable sampleSent
    ∧ sampleSent.c._sockfd = 3
    ∧ sampleSent.p.openSockets = [sampleSent.c._sockfd]
    ∧ sampleSent.p.openSockets.length ≤ 1 :=
  have hr : Reachable sampleSent :=
    ⟨"pool.ntp.org", 0, 60000, 10000, 3600000, [.forceUpdate sampleEnv], rfl⟩
  ⟨hr, by decide, (at_most_one_transport_open sampleSent hr).2.1 (by decide),
   (at_most_one_transport_open sampleSent hr).2.2.1⟩

/-! ## The boot timestamp -/

theorem civilFromDays_year (days : Nat) (h : days < 49711) :
    1000 ≤ (civilFromDays days).1 ∧ (civilFromDays days).1 ≤ 9999 := by
  unfold civilFromDays
  simp only []
  have hera : 4 ≤ (days + 719468) / 146097 ∧ (days + 719468) / 146097 ≤ 5 := by omega
  have hyoe : ((days + 719468) % 146097 - (days + 719468) % 146097 / 1460
      + (days + 719468) % 146097 / 36524 - (days + 719468) % 146097 / 146096) / 365 ≤ 400 := by
    omega
  generalize ((days + 719468) % 146097 - (days + 719468) % 146097 / 1460
      + (days + 719468) % 146097 / 36524 - (days + 719468) % 146097 / 146096) / 365 = yoe
      at hyoe ⊢
  generalize (days + 719468) / 146097 = era at hera ⊢
  split_ifs <;> omega

theorem toDigits_four (y : Nat) (h1 : 1000 ≤ y) (h2 : y ≤ 9999) :
    (Nat.toDigits 10 y).length = 4 := by
  obtain ⟨k, rfl⟩ : ∃ k, y = k + 3 := ⟨y - 3, by omega⟩
  have a1 : (k + 3) / 10 ≠ 0 := by omega
  have a2 : (k + 3) / 10 / 10 ≠ 0 := by omega
  have a3 : (k + 3) / 10 / 10 / 10 ≠ 0 := by omega
  have a4 : (k + 3) / 10 / 10 / 10 / 10 = 0 := by omega
  simp [Nat.toDigits, Nat.toDigitsCore, a1, a2, a3, a4]

/-- Every 32-bit time renders as the 19 characters of `YYYY-MM-DDTHH:MM:SS`. -/
theorem strftimeISO_length (t : Nat) (h : t < 4294967296) : (strftimeISO t).length = 19 := by
  have hy := civilFromDays_year (t / 86400) (by omega)
  have h4 := toDigits_four _ hy.1 hy.2
  unfold strftimeISO
  simp [pad2, h4]

theorem getEpochTime_lt (c : GrugNTPClient) (now : Nat) : getEpochTime c now < 4294967296 := by
  unfold getEpochTime addU32
  omega

theorem forceUpdate_baseline (e : Env) (s : Sys) :
    baseline (forceUpdate e s).2.c = baseline s.c := by
  have hst : ∀ s1 : Sys, baseline (sendStages e s1).2.c = baseline s1.c := by
    intro s1
    have h := sendStages_sendFrame e s1
    simp only [sendFrame, Prod.mk.injEq] at h
    simp only [baseline, Prod.mk.injEq]
    exact ⟨h.2.2.2.2.2.2.2.1, h.2.2.2.2.2.2.2.2.1, h.2.2.2.2.2.2.2.2.2.2.1,
      h.2.2.2.2.2.2.2.2.2.2.2⟩
  cases hw : e.wifiConnected with
  | false => rw [forceUpdate_link_down e s hw]
  | true =>
    by_cases ha : s.c._serverIP.s_addr = 0
    · cases hd : e.hostent with
      | none =>
        rw [forceUpdate_dns_failure e s hw ha hd]
        show baseline (err _ _).c = _
        rw [err_c]
        split <;> rfl
      | some a =>
        rw [forceUpdate_resolved_eq e s a hw ha hd]
        exact hst _
    · rw [forceUpdate_cached_eq e s hw ha]
      exact hst _

/-- The time a successful `receiveUpdate` computes, hands to `setTime` and, when
no boot timestamp is recorded yet, records as boot timestamp. -/
theorem receiveUpdate_boot (e : Env) (s : Sys) (h : (receiveNTPPacket s).1 = true) :
    (receiveUpdate e s).2.p.clockSets
      = s.p.clockSets ++ [getEpochTime (receiveUpdate e s).2.c e.now2]
    ∧ (s.c.boot_timestamp_iso = [] →
        (receiveUpdate e s).2.c.boot_timestamp = getEpochTime (receiveUpdate e s).2.c e.now2
        ∧ (receiveUpdate e s).2.c.boot_timestamp_iso
            = strftimeISO (getEpochTime (receiveUpdate e s).2.c e.now2))
    ∧ (s.c.boot_timestamp_iso ≠ [] →
        (receiveUpdate e s).2.c.boot_timestamp = s.c.boot_timestamp
        ∧ (receiveUpdate e s).2.c.boot_timestamp_iso = s.c.boot_timestamp_iso) := by
  have hfd := receiveNTPPacket_true_fd s h
  obtain ⟨hc, hp⟩ := receiveNTPPacket_frame s
  have hfd2 : 0 ≤ (receiveNTPPacket s).2.c._sockfd := by rw [hc]; exact hfd
  have hiso : (receiveNTPPacket s).2.c.boot_timestamp_iso = s.c.boot_timestamp_iso := by rw [hc]
  have hbt : (receiveNTPPacket s).2.c.boot_timestamp = s.c.boot_timestamp := by rw [hc]
  have hcs : (receiveNTPPacket s).2.p.clockSets = s.p.clockSets := by rw [hp]
  unfold receiveUpdate
  simp only [h, closeSocket, log, hfd2]
  refine ⟨?_, ?_, ?_⟩
  · simp only [Bool.true_eq_false, if_false, if_true]
    split <;> simp [Platform.close, hcs, getEpochTime]
  · intro h0
    simp [hiso, h0, getEpochTime]
  · intro h0
    have hne : s.c.boot_timestamp_iso.head? ≠ none := by
      cases hl : s.c.boot_timestamp_iso with
      | nil => exact absurd hl h0
      | cons a l => simp
    simp [hiso, hbt, hne]

/-- Every event other than a `receiveUpdate` that returns `true` leaves the
baseline pair and the boot timestamp alone. -/
theorem step_baseline (s : Sys) (op : Op)
    (h : ∀ e, op = .receiveUpdate e → (receiveUpdate e s).1 = false) :
    baseline (step s op).2.c = baseline s.c := by
  cases op with
  | begin port => rfl
  | end_ =>
    show baseline (end_ s).c = _
    unfold end_
    simp only []
    show baseline { (closeSocket s).c with _serverIP := _ } = _
    rw [closeSocket_c]
    rfl
  | startUpdate e =>
    show baseline (startUpdate e s).2.c = _
    unfold startUpdate
    split
    · rfl
    · exact forceUpdate_baseline e s
  | forceUpdate e => exact forceUpdate_baseline e s
  | receiveUpdate e =>
    have hf := h e rfl
    rw [receiveUpdate_fst] at hf
    show baseline (receiveUpdate e s).2.c = _
    rw [receiveUpdate_of_no_read e s hf, (receiveNTPPacket_frame s).1]
    rfl
  | setTimeOffset o => rfl
  | setUpdateInterval u r x => rfl
  | setPoolServerName n => rfl
  | arrive d =>
    show baseline (arrive d s).c = _
    unfold arrive
    split <;> rfl

/-- Once a boot timestamp is recorded no event changes it. -/
theorem step_boot_kept (s : Sys) (op : Op) (h : s.c.boot_timestamp_iso ≠ []) :
    (step s op).2.c.boot_timestamp_iso = s.c.boot_timestamp_iso
    ∧ (step s op).2.c.boot_timestamp = s.c.boot_timestamp := by
  by_cases hop : ∀ e, op = .receiveUpdate e → (receiveUpdate e s).1 = false
  · have hb := step_baseline s op hop
    simp only [baseline, Prod.mk.injEq] at hb
    exact ⟨hb.2.2.1, hb.2.2.2⟩
  · push_neg at hop
    obtain ⟨e, rfl, he⟩ := hop
    have ht : (receiveNTPPacket s).1 = true := by
      rw [← receiveUpdate_fst e s]; simpa using he
    have hb := (receiveUpdate_boot e s ht).2.2 h
    exact ⟨hb.2, hb.1⟩

theorem run_boot_kept (ops : List Op) (s : Sys) (h : s.c.boot_timestamp_iso ≠ []) :
    (run s ops).c.boot_timestamp_iso = s.c.boot_timestamp_iso
    ∧ (run s ops).c.boot_timestamp = s.c.boot_timestamp := by
  induction ops generalizing s with
  | nil => exact ⟨rfl, rfl⟩
  | cons op ops ih =>
    have hk := step_boot_kept s op h
    have hi := ih (step s op).2 (by rw [hk.1]; exact h)
    exact ⟨by rw [← hk.1]; exact hi.1, by rw [← hk.2]; exact hi.2⟩

/-- A run without a successful `receiveUpdate` leaves the baseline pair and the
boot timestamp as they were. -/
theorem run_baseline (ops : List Op) (s : Sys) (h : successfulReceives s ops = 0) :
    baseline (run s ops).c = baseline s.c := by
  induction ops generalizing s with
  | nil => rfl
  | cons op ops ih =>
    simp only [successfulReceives, Nat.add_eq_zero] at h
    have hop : ∀ e, op = .receiveUpdate e → (receiveUpdate e s).1 = false := by
      intro e he
      subst he
      have h1 := h.1
      simp only [] at h1
      by_contra hne
      have : (receiveUpdate e s).1 = true := by simpa using hne
      simp [this] at h1
    have hs := step_baseline s op hop
    have hi := ih (step s op).2 h.2
    show baseline (run (step s op).2 ops).c = _
    rw [hi, hs]

/-- C14: the boot timestamp is write-once.  Take any run of a freshly constructed
engine in which no `receiveUpdate` has returned `true` yet (`ops1`), followed by a
`receiveUpdate` that returns `true`, followed by any further events (`ops2`),
successful receives included.  Before that receive both fields are unset; the
receive sets `boot_timestamp` to the time it computes and hands to `setTime`, and
`boot_timestamp_iso` to the `YYYY-MM-DDTHH:MM:SS` rendering of that time, a
non-empty string of 19 characters; and at the end of the run both fields still
hold exactly these values. -/
theorem boot_timestamp_write_once (name : String) (off : Int) (u r x : Nat)
    (ops1 ops2 : List Op) (e : Env)
    (h0 : successfulReceives (Sys.fresh name off u r x) ops1 = 0)
    (h1 : (receiveUpdate e (run (Sys.fresh name off u r x) ops1)).1 = true) :
    ((run (Sys.fresh name off u r x) ops1).c.boot_timestamp_iso = []
      ∧ (run (Sys.fresh name off u r x) ops1).c.boot_timestamp = 0)
    ∧ ((receiveUpdate e (run (Sys.fresh name off u r x) ops1)).2.p.clockSets
        = (run (Sys.fresh name off u r x) ops1).p.clockSets
          ++ [(receiveUpdate e (run (Sys.fresh name off u r x) ops1)).2.c.boot_timestamp]
      ∧ (receiveUpdate e (run (Sys.fresh name off u r x) ops1)).2.c.boot_timestamp
        = getEpochTime (receiveUpdate e (run (Sys.fresh name off u r x) ops1)).2.c e.now2
      ∧ (receiveUpdate e (run (Sys.fresh name off u r x) ops1)).2.c.boot_timestamp_iso
        = strftimeISO (receiveUpdate e (run (Sys.fresh name off u r x) ops1)).2.c.boot_timestamp
      ∧ (receiveUpdate e (run (Sys.fresh name off u r x) ops1)).2.c.boot_timestamp_iso.length
        = 19)
    ∧ ((run (Sys.fresh name off u r x) (ops1 ++ .receiveUpdate e :: ops2)).c.boot_timestamp
        = (receiveUpdate e (run (Sys.fresh name off u r x) ops1)).2.c.boot_timestamp
      ∧ (run (Sys.fresh name off u r x) (ops1 ++ .receiveUpdate e :: ops2)).c.boot_timestamp_iso
        = (receiveUpdate e (run (Sys.fresh name off u r x) ops1)).2.c.boot_timestamp_iso) := by
  have hb := run_baseline ops1 (Sys.fresh name off u r x) h0
  simp only [baseline, Prod.mk.injEq] at hb
  have hiso : (run (Sys.fresh name off u r x) ops1).c.boot_timestamp_iso = [] := hb.2.2.1
  have hbt : (run (Sys.fresh name off u r x) ops1).c.boot_timestamp = 0 := hb.2.2.2
  have ht : (receiveNTPPacket (run (Sys.fresh name off u r x) ops1)).1 = true := by
    rw [← receiveUpdate_fst e]; exact h1
  have hr := receiveUpdate_boot e _ ht
  have hset := hr.2.1 hiso
  have hlen : (receiveUpdate e (run (Sys.fresh name off u r x) ops1)).2.c.boot_timestamp_iso.length
      = 19 := by
    rw [hset.2]
    exact strftimeISO_length _ (getEpochTime_lt _ _)
  have hne : (receiveUpdate e (run (Sys.fresh name off u r x) ops1)).2.c.boot_timestamp_iso
      ≠ [] := by
    intro h
    rw [h] at hlen
    simp at hlen
  refine ⟨⟨hiso, hbt⟩, ⟨?_, hset.1, ?_, hlen⟩, ?_⟩
  · rw [hset.1]; exact hr.1
  · rw [hset.1]; exact hset.2
  · rw [run_append]
    have hk := run_boot_kept ops2 (receiveUpdate e (run (Sys.fresh name off u r x) ops1)).2 hne
    exact ⟨hk.2, hk.1⟩

/-- Witness for C14: the first reply, for 2022-03-06T07:58:24, sets the boot
timestamp; a second exchange whose reply is 3696 seconds later sets the clock anew
and leaves the boot timestamp alone. -/
theorem boot_timestamp_write_once_witness :
    (successfulReceives (Sys.fresh "pool.ntp.org" 0 60000 10000 3600000) firstExchange = 0
      ∧ (receiveUpdate sampleEnv
          (run (Sys.fresh "pool.ntp.org" 0 60000 10000 3600000) firstExchange)).1 = true)
    ∧ (run (Sys.fresh "pool.ntp.org" 0 60000 10000 3600000)
        (firstExchange ++ .receiveUpdate sampleEnv :: secondExchange)).c._currentEpoc
        = 1646557200
    ∧ (run (Sys.fresh "pool.ntp.org" 0 60000 10000 3600000)
        (firstExchange ++ .receiveUpdate sampleEnv :: secondExchange)).c.boot_timestamp
        = (receiveUpdate sampleEnv
          (run (Sys.fresh "pool.ntp.org" 0 60000 10000 3600000) firstExchange)).2.c.boot_timestamp
    ∧ (receiveUpdate sampleEnv
          (run (Sys.fresh "pool.ntp.org" 0 60000 10000 3600000) firstExchange)).2.c.boot_timestamp
        = 1646553504
    ∧ (receiveUpdate sampleEnv (run (Sys.fresh "pool.ntp.org" 0 60000 10000 3600000)
          firstExchange)).2.c.boot_timestamp_iso
        = ['2', '0', '2', '2', '-', '0', '3', '-', '0', '6', 'T', '0', '7', ':', '5', '8', ':',
           '2', '4'] :=
  ⟨⟨by decide, by decide⟩, by decide,
   (boot_timestamp_write_once "pool.ntp.org" 0 60000 10000 3600000 firstExchange secondExchange
      sampleEnv (by decide) (by decide)).2.2.1,
   by decide, by decide⟩

/-! ## The jump to the server's time -/

theorem getD_lt_of_bytes (d : List Nat) (hbytes : ∀ b ∈ d, b < 256) (i : Nat) :
    d.getD i 0 < 256 := by
  rw [List.getD_eq_getElem?_getD]
  cases hi : d[i]? with
  | none => simp
  | some b => simpa using hbytes b (List.getElem?_mem hi)

/-- The baseline epoch stored by a `receiveUpdate` that reads the 48-byte reply `d`. -/
theorem receiveUpdate_epoch (e : Env) (s : Sys) (d : List Nat) (rest : List (List Nat))
    (hfd : 0 ≤ s.c._sockfd) (hq : s.p.rxQueue = d :: rest) (hlen : d.length = 48)
    (hbytes : ∀ b ∈ d, b < 256) :
    (receiveUpdate e s).2.c._currentEpoc = subU32 (transmitSeconds d) SEVENZYYEARS := by
  have hb : ∀ i, d.getD i 0 % 256 = d.getD i 0 :=
    fun i => Nat.mod_eq_of_lt (getD_lt_of_bytes d hbytes i)
  rw [(receiveUpdate_full e s d rest hfd hq hlen).2.2.2.1, secsSince1900_eq]
  simp only [storeDatagram_getD _ d _ hlen (by decide : 40 < 48),
    storeDatagram_getD _ d _ hlen (by decide : 41 < 48),
    storeDatagram_getD _ d _ hlen (by decide : 42 < 48),
    storeDatagram_getD _ d _ hlen (by decide : 43 < 48), Nat.mod_mod, hb]
  rfl

/-- C15: immediately after a `receiveUpdate` that returns `true` for a 48-byte
reply whose transmit-seconds field is `X`, processed at tick `t` (both tick
readings of the call are `t`), `getEpochTime` evaluated at tick `t` equals
`(time_offset + X - 2208988800) mod 2^32`; the baseline held before the call does
not enter, and this is the value the call handed to `setTime`. -/
theorem receiveUpdate_jumps_to_server_time (e : Env) (s : Sys) (d : List Nat)
    (rest : List (List Nat)) (hfd : 0 ≤ s.c._sockfd) (hq : s.p.rxQueue = d :: rest)
    (hlen : d.length = 48) (hbytes : ∀ b ∈ d, b < 256) (hsame : e.now2 = e.now) :
    (receiveUpdate e s).1 = true
    ∧ ((getEpochTime (receiveUpdate e s).2.c e.now : Nat) : Int)
        = (s.c._timeOffset + (transmitSeconds d : Int) - 2208988800) % 4294967296
    ∧ (receiveUpdate e s).2.p.clockSets
        = s.p.clockSets ++ [getEpochTime (receiveUpdate e s).2.c e.now]
    ∧ (∀ last epoch : Nat,
        getEpochTime (receiveUpdate e (withBaseline last epoch s)).2.c e.now
          = getEpochTime (receiveUpdate e s).2.c e.now) := by
  have key : ∀ s1 : Sys, 0 ≤ s1.c._sockfd → s1.p.rxQueue = d :: rest →
      ((getEpochTime (receiveUpdate e s1).2.c e.now : Nat) : Int)
        = (s1.c._timeOffset + (transmitSeconds d : Int) - 2208988800) % 4294967296 := by
    intro s1 h1 h2
    have hf := receiveUpdate_full e s1 d rest h1 h2 hlen
    have hep := receiveUpdate_epoch e s1 d rest h1 h2 hlen hbytes
    have hc := subU32_cast (transmitSeconds d) SEVENZYYEARS
    have h0 : subU32 e.now e.now = 0 := by
      have := subU32_cast e.now e.now
      omega
    have ho := toU32_cast s1.c._timeOffset
    unfold getEpochTime addU32
    rw [hf.2.2.1, hep, hf.2.2.2.2.2.2, h0]
    have hS : ((SEVENZYYEARS : Nat) : Int) = 2208988800 := rfl
    rw [hS] at hc
    omega
  have ht : (receiveNTPPacket s).1 = true := by
    rw [← receiveUpdate_fst e s]
    exact (receiveUpdate_full e s d rest hfd hq hlen).1
  refine ⟨(receiveUpdate_full e s d rest hfd hq hlen).1, key s hfd hq, ?_, ?_⟩
  · rw [← hsame]
    exact (receiveUpdate_boot e s ht).1
  · intro last epoch
    have h1 := key (withBaseline last epoch s) hfd hq
    have h2 := key s hfd hq
    have h3 : ((getEpochTime (receiveUpdate e (withBaseline last epoch s)).2.c e.now : Nat) : Int)
        = ((getEpochTime (receiveUpdate e s).2.c e.now : Nat) : Int) := by
      rw [h1, h2]
      rfl
    exact_mod_cast h3

/-- Witness for C15: the reply for 2022-03-06T07:58:24 is received at tick 5000 by
an engine with time offset 0. -/
theorem receiveUpdate_jumps_to_server_time_witness :
    (0 ≤ sampleAwaiting.c._sockfd ∧ sampleAwaiting.p.rxQueue = sampleReply :: []
      ∧ sampleReply.length = 48 ∧ (∀ b ∈ sampleReply, b < 256)
      ∧ sampleEnv.now2 = sampleEnv.now)
    ∧ getEpochTime (receiveUpdate sampleEnv sampleAwaiting).2.c 5000 = 1646553504
    ∧ (receiveUpdate sampleEnv sampleAwaiting).2.p.clockSets
        = sampleAwaiting.p.clockSets
          ++ [getEpochTime (receiveUpdate sampleEnv sampleAwaiting).2.c sampleEnv.now] :=
  ⟨⟨by decide, rfl, by decide, by decide, rfl⟩, by decide,
   (receiveUpdate_jumps_to_server_time sampleEnv sampleAwaiting sampleReply [] (by decide) rfl
      (by decide) (by decide) rfl).2.2.1⟩

/-! ## Teardown -/

theorem end_c (s : Sys) :
    (end_ s).c = { s.c with _sockfd := (end_ s).c._sockfd,
                            _serverIP := { s.c._serverIP with s_addr := 0 } } := by
  unfold end_ closeSocket
  split <;> rfl

theorem end_idempotent (s : Sys) : end_ (end_ s) = end_ s := by
  have hfd : (end_ s).c._sockfd < 0 := closeSocket_fd s
  have hc : closeSocket (end_ s) = end_ s := by
    unfold closeSocket
    simp [not_le.mpr hfd]
  show ({ closeSocket (end_ s) with c := { (closeSocket (end_ s)).c with
    _serverIP := { (closeSocket (end_ s)).c._serverIP with s_addr := 0 } } } : Sys) = end_ s
  rw [hc]
  unfold end_ closeSocket
  split <;> rfl

/-- C16: for every engine state, `end()` leaves no transport open, closing the
handle if one was open, and no cached server address, so that the next send
attempt resolves the host name again (a failing resolution stops it before any
`sendto`, a successful one supplies the address used); the server name, local
port, time offset and the three intervals keep their values, as does every other
field but the handle and the cached address; and `end()` applied twice gives the
same state as `end()` applied once. -/
theorem end_releases_transport_and_address (s : Sys) :
    ((end_ s).c._sockfd < 0
      ∧ (0 ≤ s.c._sockfd → (end_ s).c._sockfd = -1
          ∧ (end_ s).p.openSockets = s.p.openSockets.erase s.c._sockfd)
      ∧ (SocketOwned s → (end_ s).p.openSockets = []))
    ∧ (end_ s).c._serverIP.s_addr = 0
    ∧ (∀ e : Env, e.wifiConnected = true →
        (e.hostent = none → (forceUpdate e (end_ s)).1 = false
          ∧ (forceUpdate e (end_ s)).2.p.sentLog = (end_ s).p.sentLog)
        ∧ (∀ a, e.hostent = some a →
            (forceUpdate e (end_ s)).2.c._serverIP = ⟨AF_INET, htons 123, a⟩))
    ∧ ((end_ s).c._serverName = s.c._serverName ∧ (end_ s).c._port = s.c._port
      ∧ (end_ s).c._timeOffset = s.c._timeOffset
      ∧ (end_ s).c._updateInterval = s.c._updateInterval
      ∧ (end_ s).c._retryInterval = s.c._retryInterval
      ∧ (end_ s).c._errorInterval = s.c._errorInterval)
    ∧ (end_ s).c = { s.c with _sockfd := (end_ s).c._sockfd,
                              _serverIP := { s.c._serverIP with s_addr := 0 } }
    ∧ end_ (end_ s) = end_ s := by
  have ha : (end_ s).c._serverIP.s_addr = 0 := rfl
  refine ⟨⟨closeSocket_fd s, ?_, fun ho => (closeSocket_owned s ho).2⟩, ha, ?_, ?_, end_c s,
    end_idempotent s⟩
  · intro hfd
    unfold end_ closeSocket
    simp [hfd, Platform.close]
  · intro e hw
    refine ⟨fun hd => ?_, fun a hd => ?_⟩
    · by_cases hc : (end_ s).c._errorCounter < MAX_DNS_ERRORS
      · have h := forceUpdate_dns_failure_counting e (end_ s) hw ha hd hc
        exact ⟨h.1, h.2.2.2.2.2.2⟩
      · have h := forceUpdate_dns_failure_saturated e (end_ s) hw ha hd hc
        exact ⟨h.1, h.2.2.2.2.2.2⟩
    · rw [forceUpdate_resolved_eq e (end_ s) a hw ha hd]
      exact congrArg (fun t => t.2.1) (sendStages_sendFrame e (resolved a (end_ s)))
  · rw [end_c]
    exact ⟨rfl, rfl, rfl, rfl, rfl, rfl⟩

/-- Witness for C16: `end()` on the engine that is awaiting a reply on socket 3
with the server address cached. -/
theorem end_releases_transport_and_address_witness :
    (0 ≤ sampleAwaiting.c._sockfd ∧ sampleAwaiting.c._serverIP.s_addr = 16909060)
    ∧ (end_ sampleAwaiting).c._sockfd = -1
    ∧ (end_ sampleAwaiting).p.openSockets = []
    ∧ (end_ sampleAwaiting).c._serverIP.s_addr = 0
    ∧ (forceUpdate sampleEnvNoDns (end_ sampleAwaiting)).1 = false
    ∧ end_ (end_ sampleAwaiting) = end_ sampleAwaiting :=
  ⟨⟨by decide, by decide⟩,
   ((end_releases_transport_and_address sampleAwaiting).1.2.1 (by decide)).1,
   by decide,
   (end_releases_transport_and_address sampleAwaiting).2.1,
   (((end_releases_transport_and_address sampleAwaiting).2.2.1 sampleEnvNoDns rfl).1 rfl).1,
   (end_releases_transport_and_address sampleAwaiting).2.2.2.2.2⟩

/-! ## The drain step -/

theorem receiveNTPPacket_cons (s : Sys) (d : List Nat) (rest : List (List Nat))
    (hfd : 0 ≤ s.c._sockfd) (hq : s.p.rxQueue = d :: rest) :
    receiveNTPPacket s =
      (decide (48 ≤ d.length),
        { c := { s.c with _packetBuffer := storeDatagram s.c._packetBuffer d },
          p := { s.p with rxQueue := rest } }) := by
  unfold receiveNTPPacket recvfrom
  simp only [hq, not_lt.mpr hfd, if_false, recvLen, NTP_PACKET_SIZE, toU32]
  congr 1
  by_cases h : 48 ≤ d.length
  · simp [h]
  · simp only [h, decide_False, decide_eq_false_iff_not]
    omega

theorem receiveNTPPacket_nil (s : Sys) (hq : s.p.rxQueue = []) :
    (receiveNTPPacket s).1 = false ∧ (receiveNTPPacket s).2.p.rxQueue = [] := by
  unfold receiveNTPPacket recvfrom
  split
  · exact ⟨rfl, hq⟩
  · simp [hq, toU32, NTP_PACKET_SIZE]

/-- When every queued datagram fills the 48-byte buffer, the loop reads them all. -/
theorem drainLoop_full_queue (q : List (List Nat)) (n : Nat) (s : Sys)
    (hfd : 0 ≤ s.c._sockfd) (hq : s.p.rxQueue = q) (hn : q.length < n)
    (hall : ∀ d ∈ q, 48 ≤ d.length) : (drainLoop n s).p.rxQueue = [] := by
  induction q generalizing n s with
  | nil =>
    obtain ⟨m, rfl⟩ : ∃ m, n = m + 1 := ⟨n - 1, by simp at hn; omega⟩
    have h := receiveNTPPacket_nil s hq
    unfold drainLoop
    simp only [h.1]
    exact h.2
  | cons d rest ih =>
    obtain ⟨m, rfl⟩ : ∃ m, n = m + 1 := ⟨n - 1, by simp at hn; omega⟩
    have h := receiveNTPPacket_cons s d rest hfd hq
    have hd : 48 ≤ d.length := hall d (List.mem_cons_self _ _)
    unfold drainLoop
    simp only [h, hd, decide_True, if_true]
    exact ih m _ hfd rfl (by simp at hn; omega) (fun d2 h2 => hall d2 (List.mem_cons_of_mem _ h2))

/-- C17 fails on the code: with a one-byte datagram queued ahead of a stale
48-byte reply, the drain loop of `forceUpdate` stops at its first read, because
that read does not yield 48 bytes.  The request is sent while the stale reply is
still queued, and the next `receiveUpdate` processes that reply, which arrived
before the send, as the answer. -/
theorem drain_stops_at_short_datagram :
    sampleStale.p.rxQueue = [[0], sampleReply]
    ∧ (drain sampleStale).p.rxQueue = [sampleReply]
    ∧ (forceUpdate sampleEnv sampleStale).1 = true
    ∧ (forceUpdate sampleEnv sampleStale).2.p.rxQueue = [sampleReply]
    ∧ (receiveUpdate sampleEnv (forceUpdate sampleEnv sampleStale).2).1 = true
    ∧ (receiveUpdate sampleEnv (forceUpdate sampleEnv sampleStale).2).2.c._currentEpoc
        = 1646553504 := by
  refine ⟨?_, ?_, ?_, ?_, ?_, ?_⟩ <;> decide

/-! ## Error exits of the send path -/

theorem openSocket_fails (e : Env) (s1 : Sys) (hneg : s1.c._sockfd < 0)
    (hfail : e.socketRet < 0 ∨ e.bindRet < 0 ∨ e.fcntlGetRet < 0 ∨ e.fcntlSetRet < 0) :
    ∃ s2, openSocket e s1 = .error s2 := by
  unfold openSocket
  simp only [hneg, if_true]
  by_cases h1 : e.socketRet < 0
  · simp [h1]
  · by_cases h2 : e.bindRet < 0
    · simp [h1, h2]
    · by_cases h3 : e.fcntlGetRet < 0 ∨ e.fcntlSetRet < 0
      · simp [h1, h2, h3]
      · exfalso
        rcases hfail with h | h | h | h
        · exact h1 h
        · exact h2 h
        · exact h3 (Or.inl h)
        · exact h3 (Or.inr h)

/-- A failure of socket creation, bind or non-blocking configuration: the stages
after name resolution return `false`, leave no transport open and do not touch the
timer. -/
theorem sendStages_socket_failure (e : Env) (s1 : Sys) (hneg : s1.c._sockfd < 0)
    (hfail : e.socketRet < 0 ∨ e.bindRet < 0 ∨ e.fcntlGetRet < 0 ∨ e.fcntlSetRet < 0) :
    (sendStages e s1).1 = false ∧ (sendStages e s1).2.c._sockfd < 0
    ∧ (sendStages e s1).2.c.timeout = s1.c.timeout
    ∧ (sendStages e s1).2.p.sentLog = s1.p.sentLog := by
  obtain ⟨s2, h2⟩ := openSocket_fails e s1 hneg hfail
  have he := openSocket_error e s1 s2 h2
  have hc := openSocket_c e s1 s2 (Or.inr h2)
  unfold sendStages
  rw [h2]
  refine ⟨rfl, he.1, ?_, he.2.1⟩
  show s2.c.timeout = _
  rw [hc]

/-- A `forceUpdate` that passes the link check and returns `false` leaves no
transport open. -/
theorem forceUpdate_false_closed (e : Env) (s : Sys) (hw : e.wifiConnected = true)
    (hf : (forceUpdate e s).1 = false) :
    (forceUpdate e s).2.c._sockfd < 0
    ∧ (SocketOwned s → (forceUpdate e s).2.p.openSockets = []) := by
  have hst : ∀ s1 : Sys, forceUpdate e s = sendStages e s1 → (SocketOwned s → SocketOwned s1) →
      (forceUpdate e s).2.c._sockfd < 0
      ∧ (SocketOwned s → (forceUpdate e s).2.p.openSockets = []) := by
    intro s1 heq hown
    rw [heq] at hf ⊢
    rcases sendStages_outcome e s1 with h | h
    · exact ⟨h.2.1, fun ho => h.2.2.2 (hown ho)⟩
    · rw [h.1] at hf
      exact absurd hf (by simp)
  by_cases ha : s.c._serverIP.s_addr = 0
  · cases hd : e.hostent with
    | none =>
      rw [forceUpdate_dns_failure e s hw ha hd]
      refine ⟨err_fd _ _, fun ho => ?_⟩
      apply (err_owned _ _ _).2
      split <;> exact ho
    | some a => exact hst (resolved a s) (forceUpdate_resolved_eq e s a hw ha hd) (fun ho => ho)
  · exact hst s (forceUpdate_cached_eq e s hw ha) (fun ho => ho)

/-- C18: every error exit of `forceUpdate` releases the transport.  A
`forceUpdate` that passes the link check and returns `false` ends with no
transport open (`_sockfd < 0`, and no handle left open on the platform), whichever
step failed.  A resolution that fails, and a `sendto` result other than 48, make
it return `false`.  When the step that fails is socket creation, bind or the
non-blocking configuration (the address being cached or resolved, no socket being
open), it returns `false`, calls `sendto` not at all and leaves the retry timer
exactly as it was armed before the call. -/
theorem forceUpdate_error_exits_release_transport (e : Env) (s : Sys)
    (hw : e.wifiConnected = true) :
    ((forceUpdate e s).1 = false →
        (forceUpdate e s).2.c._sockfd < 0
        ∧ (SocketOwned s → (forceUpdate e s).2.p.openSockets = []))
    ∧ (s.c._serverIP.s_addr = 0 → e.hostent = none → (forceUpdate e s).1 = false)
    ∧ (toU32 e.sendtoRet ≠ NTP_PACKET_SIZE → (forceUpdate e s).1 = false)
    ∧ ((s.c._serverIP.s_addr ≠ 0 ∨ e.hostent ≠ none) → s.c._sockfd < 0 →
        (e.socketRet < 0 ∨ e.bindRet < 0 ∨ e.fcntlGetRet < 0 ∨ e.fcntlSetRet < 0) →
        (forceUpdate e s).1 = false
        ∧ (forceUpdate e s).2.c._sockfd < 0
        ∧ (forceUpdate e s).2.c.timeout = s.c.timeout
        ∧ (forceUpdate e s).2.p.sentLog = s.p.sentLog) := by
  refine ⟨forceUpdate_false_closed e s hw, ?_, ?_, ?_⟩
  · intro ha hd
    rw [forceUpdate_dns_failure e s hw ha hd]
  · intro hr
    rcases forceUpdate_outcome e s with h | h
    · exact h.1
    · exact absurd h.2.1 hr
  · intro haddr hneg hfail
    by_cases ha : s.c._serverIP.s_addr = 0
    · cases hd : e.hostent with
      | none =>
        rcases haddr with h | h
        · exact absurd ha h
        · exact absurd hd h
      | some a =>
        rw [forceUpdate_resolved_eq e s a hw ha hd]
        exact sendStages_socket_failure e (resolved a s) hneg hfail
    · rw [forceUpdate_cached_eq e s hw ha]
      exact sendStages_socket_failure e s hneg hfail

/-- Witness for C18: on a fresh engine whose timer was never armed, the name
resolves and `bind` fails. -/
theorem forceUpdate_error_exits_release_transport_witness :
    (({ sampleEnv with bindRet := -1 } : Env).wifiConnected = true
      ∧ ({ sampleEnv with bindRet := -1 } : Env).hostent ≠ none
      ∧ sampleFresh.c._sockfd < 0 ∧ ({ sampleEnv with bindRet := -1 } : Env).bindRet < 0)
    ∧ (forceUpdate { sampleEnv with bindRet := -1 } sampleFresh).1 = false
    ∧ (forceUpdate { sampleEnv with bindRet := -1 } sampleFresh).2.c._sockfd < 0
    ∧ (forceUpdate { sampleEnv with bindRet := -1 } sampleFresh).2.p.openSockets = []
    ∧ (forceUpdate { sampleEnv with bindRet := -1 } sampleFresh).2.c.timeout
        = sampleFresh.c.timeout :=
  ⟨⟨rfl, by decide, by decide, by decide⟩,
   ((forceUpdate_error_exits_release_transport { sampleEnv with bindRet := -1 } sampleFresh
      rfl).2.2.2 (Or.inr (by decide)) (by decide) (Or.inr (Or.inl (by decide)))).1,
   ((forceUpdate_error_exits_release_transport { sampleEnv with bindRet := -1 } sampleFresh
      rfl).2.2.2 (Or.inr (by decide)) (by decide) (Or.inr (Or.inl (by decide)))).2.1,
   by decide,
   ((forceUpdate_error_exits_release_transport { sampleEnv with bindRet := -1 } sampleFresh
      rfl).2.2.2 (Or.inr (by decide)) (by decide) (Or.inr (Or.inl (by decide)))).2.2.1⟩

/-- C19: the baseline pair is overwritten only together and only by a successful
receive.  Every event other than a `receiveUpdate` that returns `true` (`begin`,
`end`, `startUpdate`, `forceUpdate` on every path, a `receiveUpdate` that returns
`false`, the setters, the arrival of a datagram) leaves `_currentEpoc` and
`_lastUpdate` unchanged, and the queries `getEpochTime` and `isTimeSet` are
functions of the state that return no new state; a `receiveUpdate` that returns
`true` writes both in the same call, `_lastUpdate` to the tick read during that
call and `_currentEpoc` to the epoch decoded from the datagram just read. -/
theorem baseline_written_only_by_successful_receive (s : Sys) (op : Op) :
    ((∀ e, op = .receiveUpdate e → (receiveUpdate e s).1 = false) →
        (step s op).2.c._lastUpdate = s.c._lastUpdate
        ∧ (step s op).2.c._currentEpoc = s.c._currentEpoc)
    ∧ (∀ e, (receiveUpdate e s).1 = true →
        (receiveUpdate e s).2.c._lastUpdate = e.now
        ∧ (receiveUpdate e s).2.c._currentEpoc
            = subU32 (secsSince1900 (receiveNTPPacket s).2.c._packetBuffer) SEVENZYYEARS) := by
  refine ⟨fun h => ?_, fun e he => ?_⟩
  · have hb := step_baseline s op h
    simp only [baseline, Prod.mk.injEq] at hb
    exact ⟨hb.1, hb.2.1⟩
  · rw [receiveUpdate_fst] at he
    have hr := receiveUpdate_of_read e s he
    exact ⟨hr.2.2.1, hr.2.2.2.1⟩

/-- Witness for C19: a `forceUpdate` on an engine synced at tick 4294967000 keeps
the baseline pair, and the receive of `sampleReply` at tick 5000 writes both. -/
theorem baseline_written_only_by_successful_receive_witness :
    ((step (withBaseline 4294967000 1646553504 sampleFresh) (.forceUpdate sampleEnv)).2.c._lastUpdate
        = 4294967000
      ∧ (step (withBaseline 4294967000 1646553504 sampleFresh)
          (.forceUpdate sampleEnv)).2.c._currentEpoc = 1646553504)
    ∧ (receiveUpdate sampleEnv sampleAwaiting).1 = true
    ∧ (receiveUpdate sampleEnv sampleAwaiting).2.c._lastUpdate = 5000
    ∧ (receiveUpdate sampleEnv sampleAwaiting).2.c._currentEpoc = 1646553504 :=
  ⟨(baseline_written_only_by_successful_receive (withBaseline 4294967000 1646553504 sampleFresh)
      (.forceUpdate sampleEnv)).1 (fun e h => by cases h),
   by decide,
   ((baseline_written_only_by_successful_receive sampleAwaiting (.begin 0)).2 sampleEnv
      (by decide)).1,
   by decide⟩

/-! ## The receive path when nothing is processed -/

theorem receiveNTPPacket_true_iff (s : Sys) :
    (receiveNTPPacket s).1 = true
      ↔ 0 ≤ s.c._sockfd ∧ (recvfrom s.p s.c._packetBuffer).1 = 48 := by
  by_cases hfd : s.c._sockfd < 0
  · have : receiveNTPPacket s = (false, s) := by unfold receiveNTPPacket; simp [hfd]
    rw [this]
    constructor
    · intro h; simp at h
    · intro h; omega
  · have hfd2 : 0 ≤ s.c._sockfd := by omega
    cases hq : s.p.rxQueue with
    | nil =>
      have h1 := (receiveNTPPacket_nil s hq).1
      have h2 : (recvfrom s.p s.c._packetBuffer).1 = -1 := by unfold recvfrom; simp [hq]
      rw [h1, h2]
      constructor
      · intro h; simp at h
      · intro h; omega
    | cons d rest =>
      rw [receiveNTPPacket_cons s d rest hfd2 hq]
      have h2 : (recvfrom s.p s.c._packetBuffer).1 = recvLen d := by unfold recvfrom; simp [hq]
      rw [h2]
      unfold recvLen NTP_PACKET_SIZE
      simp only [decide_eq_true_eq]
      constructor
      · intro h; exact ⟨hfd2, by omega⟩
      · intro h; omega

theorem recvfrom_full_iff (s : Sys) :
    (recvfrom s.p s.c._packetBuffer).1 = 48
      ↔ ∃ d rest, s.p.rxQueue = d :: rest ∧ 48 ≤ d.length := by
  cases hq : s.p.rxQueue with
  | nil =>
    have h2 : (recvfrom s.p s.c._packetBuffer).1 = -1 := by unfold recvfrom; simp [hq]
    rw [h2]
    constructor
    · intro h; omega
    · rintro ⟨d, rest, h, _⟩; cases h
  | cons d rest =>
    have h2 : (recvfrom s.p s.c._packetBuffer).1 = recvLen d := by unfold recvfrom; simp [hq]
    rw [h2]
    unfold recvLen NTP_PACKET_SIZE
    constructor
    · intro h; exact ⟨d, rest, rfl, by omega⟩
    · rintro ⟨d2, rest2, h, hl⟩
      cases h
      omega

theorem receiveNTPPacket_queue (s : Sys) :
    (receiveNTPPacket s).2.p.rxQueue = s.p.rxQueue
    ∨ (0 ≤ s.c._sockfd ∧ (receiveNTPPacket s).2.p.rxQueue = s.p.rxQueue.tail) := by
  by_cases hfd : s.c._sockfd < 0
  · left
    have : receiveNTPPacket s = (false, s) := by unfold receiveNTPPacket; simp [hfd]
    rw [this]
  · have hfd2 : 0 ≤ s.c._sockfd := by omega
    cases hq : s.p.rxQueue with
    | nil => left; exact (receiveNTPPacket_nil s hq).2
    | cons d rest =>
      right
      rw [receiveNTPPacket_cons s d rest hfd2 hq]
      exact ⟨hfd2, rfl⟩

/-- C20: `receiveUpdate` returns `true` if and only if a transport is open and the
one `recvfrom` it performs returns exactly 48; that is the case exactly when a
datagram is queued that fills the 48-byte buffer (`recvfrom` cuts a longer one to
48).  Otherwise (no transport, nothing queued, or a queued datagram shorter than
48 bytes) it returns `false` as "nothing received" and leaves every field of the
engine but the packet buffer unchanged, in particular the handle, which stays
open if it was, the retry timer, `dns_error_count`, the cached address, the
baseline and the boot timestamp; the platform is unchanged but for the receive
queue, from which at most the first datagram has been taken, so no more than one
read is made per call.  With no transport or nothing queued the state is exactly
as before. -/
theorem receiveUpdate_true_iff_full_read (e : Env) (s : Sys) :
    ((receiveUpdate e s).1 = true
      ↔ 0 ≤ s.c._sockfd ∧ (recvfrom s.p s.c._packetBuffer).1 = 48)
    ∧ ((receiveUpdate e s).1 = true
      ↔ 0 ≤ s.c._sockfd ∧ ∃ d rest, s.p.rxQueue = d :: rest ∧ 48 ≤ d.length)
    ∧ ((receiveUpdate e s).1 = false →
        (receiveUpdate e s).2.c
          = { s.c with _packetBuffer := (receiveUpdate e s).2.c._packetBuffer }
        ∧ (receiveUpdate e s).2.p
          = { s.p with rxQueue := (receiveUpdate e s).2.p.rxQueue }
        ∧ ((receiveUpdate e s).2.p.rxQueue = s.p.rxQueue
          ∨ (0 ≤ s.c._sockfd ∧ (receiveUpdate e s).2.p.rxQueue = s.p.rxQueue.tail)))
    ∧ (s.c._sockfd < 0 → receiveUpdate e s = (false, s))
    ∧ (s.p.rxQueue = [] → receiveUpdate e s = (false, s))
    ∧ (∀ d rest, 0 ≤ s.c._sockfd → s.p.rxQueue = d :: rest → d.length < 48 →
        (receiveUpdate e s).1 = false ∧ (receiveUpdate e s).2.p.rxQueue = rest
        ∧ (receiveUpdate e s).2.c._sockfd = s.c._sockfd) := by
  have hiff := receiveNTPPacket_true_iff s
  refine ⟨?_, ?_, ?_, ?_, ?_, ?_⟩
  · rw [receiveUpdate_fst]; exact hiff
  · rw [receiveUpdate_fst, hiff, recvfrom_full_iff]
  · intro hf
    rw [receiveUpdate_fst] at hf
    rw [receiveUpdate_of_no_read e s hf]
    exact ⟨(receiveNTPPacket_frame s).1, (receiveNTPPacket_frame s).2, receiveNTPPacket_queue s⟩
  · intro hneg
    have h : receiveNTPPacket s = (false, s) := by unfold receiveNTPPacket; simp [hneg]
    rw [receiveUpdate_of_no_read e s (by rw [h]), h]
  · intro hq
    by_cases hneg : s.c._sockfd < 0
    · have h : receiveNTPPacket s = (false, s) := by unfold receiveNTPPacket; simp [hneg]
      rw [receiveUpdate_of_no_read e s (by rw [h]), h]
    · have h : receiveNTPPacket s = (false, s) := by
        unfold receiveNTPPacket recvfrom
        simp [hneg, hq, toU32, NTP_PACKET_SIZE]
      rw [receiveUpdate_of_no_read e s (by rw [h]), h]
  · intro d rest hfd hq hlen
    have h := receiveNTPPacket_cons s d rest hfd hq
    have hd : decide (48 ≤ d.length) = false := by simp; omega
    rw [hd] at h
    rw [receiveUpdate_of_no_read e s (by rw [h]), h]
    exact ⟨rfl, rfl, rfl⟩

/-- Witness for C20: a 47-byte datagram is read and dropped while the engine keeps
waiting on socket 3; the full reply is accepted. -/
theorem receiveUpdate_true_iff_full_read_witness :
    (0 ≤ (awaitingWith sampleShort).c._sockfd
      ∧ (awaitingWith sampleShort).p.rxQueue = sampleShort :: []
      ∧ sampleShort.length < 48)
    ∧ (receiveUpdate sampleEnv (awaitingWith sampleShort)).1 = false
    ∧ (receiveUpdate sampleEnv (awaitingWith sampleShort)).2.p.rxQueue = []
    ∧ (receiveUpdate sampleEnv (awaitingWith sampleShort)).2.c._sockfd = 3
    ∧ (receiveUpdate sampleEnv (awaitingWith sampleShort)).2.c.timeout
        = (awaitingWith sampleShort).c.timeout
    ∧ (receiveUpdate sampleEnv sampleAwaiting).1 = true :=
  ⟨⟨by decide, rfl, by decide⟩,
   ((receiveUpdate_true_iff_full_read sampleEnv (awaitingWith sampleShort)).2.2.2.2.2
      sampleShort [] (by decide) rfl (by decide)).1,
   ((receiveUpdate_true_iff_full_read sampleEnv (awaitingWith sampleShort)).2.2.2.2.2
      sampleShort [] (by decide) rfl (by decide)).2.1,
   ((receiveUpdate_true_iff_full_read sampleEnv (awaitingWith sampleShort)).2.2.2.2.2
      sampleShort [] (by decide) rfl (by decide)).2.2,
   by decide,
   (receiveUpdate_true_iff_full_read sampleEnv sampleAwaiting).1.mpr ⟨by decide, by decide⟩⟩

end GrugNTP
